import Mathlib

/-!
# Verification of the request-proxy worker and the API readiness managers

Shallow embedding of `src/workers/worker.js` (the edge function that routes
requests to the config, proxy, Sheets and Language handlers and to the static
asset store) and of the readiness managers of `assets/scripts`.

The JavaScript built-ins the code calls (`JSON.stringify`, template-literal
string conversion, property destructuring) are embedded over a datatype of
JSON values; the services the code awaits (`request.json()`, the global
`fetch`, `response.text()`, `env.ASSETS.fetch`) are inputs of the model, each
with a success and a failure outcome.
-/

namespace Worker

/-! ## JavaScript values and built-ins -/

/-- A thrown JavaScript error; only its `message` is ever read by the code. -/
structure JsError where
  message : String
deriving DecidableEq, Repr

/-- A value produced by `JSON.parse` (hence by `request.json()`). Numbers are
kept as their canonical text; object members are in property enumeration
order, each key once. The JavaScript `undefined` is not a member: a value that
may be `undefined` has type `Option Json`. -/
inductive Json where
  | null
  | bool (b : Bool)
  | num (text : String)
  | str (s : String)
  | arr (items : List Json)
  | obj (members : List (String × Json))
deriving Repr

/-- One lowercase hexadecimal digit, as `QuoteJSONString` emits it. -/
def hexDigit (n : Nat) : Char :=
  if n < 10 then Char.ofNat (48 + n) else Char.ofNat (87 + n)

/-- The six characters `\uXXXX` for a code unit `n`. -/
def unicodeEscape (n : Nat) : List Char :=
  ['\\', 'u', hexDigit (n / 4096 % 16), hexDigit (n / 256 % 16),
    hexDigit (n / 16 % 16), hexDigit (n % 16)]

/-- The text `QuoteJSONString` emits for one code point (ECMA-262, 25.5.2.3):
the short escapes, `\uXXXX` for the other control characters, and the
character itself otherwise. -/
def quoteChar (c : Char) : List Char :=
  if c = '\x08' then ['\\', 'b']
  else if c = '\t' then ['\\', 't']
  else if c = '\n' then ['\\', 'n']
  else if c = '\x0c' then ['\\', 'f']
  else if c = '\r' then ['\\', 'r']
  else if c = '"' then ['\\', '"']
  else if c = '\\' then ['\\', '\\']
  else if c.toNat < 32 then unicodeEscape c.toNat
  else [c]

/-- The characters of a quoted string between the two double quotes. -/
def quoteChars : List Char → List Char
  | [] => []
  | c :: cs => quoteChar c ++ quoteChars cs

/-- The built-in `QuoteJSONString`: `JSON.stringify` of a string. -/
def quoteJSONString (s : String) : String :=
  ⟨'"' :: (quoteChars s.data ++ ['"'])⟩

mutual
/-- The built-in `JSON.stringify` on a JSON value, without indentation. -/
def Json.stringify : Json → String
  | .null => "null"
  | .bool true => "true"
  | .bool false => "false"
  | .num text => text
  | .str s => quoteJSONString s
  | .arr items => "[" ++ Json.stringifyItems items ++ "]"
  | .obj members => "\x7b" ++ Json.stringifyMembers members ++ "\x7d"
/-- The comma-separated elements of an array. -/
def Json.stringifyItems : List Json → String
  | [] => ""
  | [x] => Json.stringify x
  | x :: y :: rest => Json.stringify x ++ "," ++ Json.stringifyItems (y :: rest)
/-- The comma-separated `"key":value` members of an object. -/
def Json.stringifyMembers : List (String × Json) → String
  | [] => ""
  | [(k, v)] => quoteJSONString k ++ ":" ++ Json.stringify v
  | (k, v) :: m :: rest =>
    quoteJSONString k ++ ":" ++ Json.stringify v ++ "," ++ Json.stringifyMembers (m :: rest)
end

/-- The value of `o[key]` for an object parsed from JSON: the member of that
name, `undefined` when there is none. -/
def lookupMember (key : String) : List (String × Json) → Option Json
  | [] => none
  | (k, v) :: rest => if k = key then some v else lookupMember key rest

/-- The `TypeError` of `OrdinaryToPrimitive` on an object neither of whose
methods `toString` and `valueOf` gives a primitive value. -/
def toPrimitiveError : JsError :=
  { message := "Cannot convert object to primitive value" }

mutual
/-- The built-in `ToString` on a JSON value (what a template literal applies
to an interpolated value, and `fetch` to its first argument). An array is its
elements joined by commas. An object is converted by `OrdinaryToPrimitive`,
which reads its `toString`: an object parsed from JSON that has a member of
that name holds a value there, never a function, and then `valueOf`, own or
inherited, gives no primitive value either, so the conversion throws; without
such a member the inherited method gives `[object Object]`. -/
def Json.toStr : Json → Except JsError String
  | .null => .ok "null"
  | .bool true => .ok "true"
  | .bool false => .ok "false"
  | .num text => .ok text
  | .str s => .ok s
  | .arr items => Json.joinItems items
  | .obj members =>
    match lookupMember "toString" members with
    | some _ => .error toPrimitiveError
    | none => .ok "[object Object]"
/-- The built-in `Array.prototype.join` with a comma: a `null` element
contributes the empty string, another element its `ToString`, in order. -/
def Json.joinItems : List Json → Except JsError String
  | [] => .ok ""
  | [.null] => .ok ""
  | [x] => Json.toStr x
  | .null :: y :: rest =>
    match Json.joinItems (y :: rest) with
    | .ok tail => .ok ("," ++ tail)
    | .error e => .error e
  | x :: y :: rest =>
    match Json.toStr x with
    | .error e => .error e
    | .ok head =>
      match Json.joinItems (y :: rest) with
      | .ok tail => .ok (head ++ "," ++ tail)
      | .error e => .error e
end

/-- The built-in `ToString` on a value that may be `undefined`. -/
def toStr : Option Json → Except JsError String
  | none => .ok "undefined"
  | some v => v.toStr

/-- The binding a destructuring pattern `const { key } = value` gives `key`:
it throws a `TypeError` on `null`, reads the member on an object, and is
`undefined` on the other values (none of the names the worker destructures is
a data property of a string, number, boolean or array; on an array `values`
is a function, which `JSON.stringify` omits like `undefined`). -/
def destructure (value : Json) (key : String) : Except JsError (Option Json) :=
  match value with
  | .null =>
    .error ⟨"Cannot destructure property '" ++ key ++ "' of '(intermediate value)' as it is null."⟩
  | .obj members => .ok (lookupMember key members)
  | _ => .ok none

/-- An object literal whose member values may be `undefined`: `JSON.stringify`
omits those members. -/
def objectLiteral (members : List (String × Option Json)) : Json :=
  .obj (members.filterMap fun kv => kv.2.map fun v => (kv.1, v))

/-- The built-in `String.prototype.startsWith`. -/
def startsWith (s start : String) : Bool :=
  start.data.isPrefixOf s.data

/-! ## Requests, responses and the services the worker awaits -/

/-- A `Response` object: body (`null` when absent), status and headers. -/
structure Response where
  body : Option String
  status : Nat
  headers : List (String × String)
deriving DecidableEq, Repr

/-- Whether a header name is `Content-Type`; header names match without
regard to the case of ASCII letters. -/
def isContentType (name : String) : Bool :=
  name.data.map Char.toLower == "content-type".data

/-- The constructor `new Response(body, { status, headers })`: the status is
200 when the init dictionary has none; when the body is a string and the init
headers name no `Content-Type`, the header
`Content-Type: text/plain;charset=UTF-8` is appended. -/
def newResponse (body : Option String) (status : Option Nat)
    (headers : List (String × String)) : Response :=
  { body := body
    status := status.getD 200
    headers :=
      match body with
      | none => headers
      | some _ =>
        if headers.any fun kv => isContentType kv.1 then headers
        else headers ++ [("Content-Type", "text/plain;charset=UTF-8")] }

/-- The value of a header in a response, `none` when it is not set. -/
def Response.header (r : Response) (name : String) : Option String :=
  (r.headers.find? fun kv => kv.1 = name).map Prod.snd

/-- The incoming request, as far as the worker reads it: `request.method`,
`new URL(request.url).pathname`, `request.headers.get("Authorization")`
(`null` when the header is absent) and the outcome of `await request.json()`. -/
structure Request where
  method : String
  pathname : String
  authorization : Option String
  json : Except JsError Json

/-- A call of the global `fetch(url, { method, headers, body })`: the url as
a string, the method (`GET` when the init dictionary names none), the headers
with the values the init dictionary gives them (`none` for `null`) and the
body. -/
structure Outbound where
  url : String
  method : String
  headers : List (String × Option String)
  body : Option String
deriving DecidableEq, Repr

/-- The response of an upstream service: its status and the outcome of
`await response.text()`. -/
structure Upstream where
  status : Nat
  text : Except JsError String

/-- The global `fetch` of the runtime: it resolves to a response or rejects. -/
structure Platform where
  fetch : Outbound → Except JsError Upstream

/-- The bindings of the worker: the two configuration values (`undefined` when
unset) and the asset store. -/
structure Env where
  GOOGLE_CLIENT_ID : Option String
  GOOGLE_API_KEY : Option String
  ASSETS : Request → Except JsError Response

/-- A service consulted while a request is handled, in call order. -/
inductive Event where
  | upstream (call : Outbound)
  | assets
deriving DecidableEq, Repr

/-- A computation of the worker: it extends the log of services consulted and
either returns a value or throws. -/
def Eff (α : Type) : Type :=
  List Event → Except JsError α × List Event

/-- Return a value. -/
def Eff.pure {α : Type} (a : α) : Eff α :=
  fun log => (.ok a, log)

/-- Sequence two computations; a throw skips the second. -/
def Eff.bind {α β : Type} (m : Eff α) (f : α → Eff β) : Eff β :=
  fun log =>
    match m log with
    | (.ok a, log1) => f a log1
    | (.error e, log1) => (.error e, log1)

instance : Monad Eff where
  pure := Eff.pure
  bind := Eff.bind

/-- The statement `try { body } catch (error) { handler }`. -/
def Eff.tryCatch {α : Type} (body : Eff α) (handler : JsError → Eff α) : Eff α :=
  fun log =>
    match body log with
    | (.ok a, log1) => (.ok a, log1)
    | (.error e, log1) => handler e log1

/-- Use an outcome that consults no service: `await` of an already settled
promise, or an expression that may throw. -/
def Eff.await {α : Type} (outcome : Except JsError α) : Eff α :=
  fun log => (outcome, log)

/-- The call `await fetch(...)` to an upstream service. -/
def Eff.fetch (p : Platform) (call : Outbound) : Eff Upstream :=
  fun log => (p.fetch call, log ++ [Event.upstream call])

/-- The call `await env.ASSETS.fetch(request)`. -/
def Eff.assets (env : Env) (request : Request) : Eff Response :=
  fun log => (env.ASSETS request, log ++ [Event.assets])

/-! ## The worker (`src/workers/worker.js`) -/

/-- The response to a CORS preflight. -/
def preflightResponse : Response :=
  newResponse none none
    [("Access-Control-Allow-Origin", "*"),
     ("Access-Control-Allow-Methods", "GET, POST, OPTIONS"),
     ("Access-Control-Allow-Headers", "Content-Type, Authorization, Origin"),
     ("Access-Control-Max-Age", "86400")]

/-- The config endpoint. -/
def configRoute (env : Env) : Eff Response :=
  pure (newResponse
    (some (Json.stringify (objectLiteral [("clientId", env.GOOGLE_CLIENT_ID.map Json.str)])))
    none
    [("Content-Type", "application/json"),
     ("Access-Control-Allow-Origin", "*"),
     ("Access-Control-Allow-Methods", "GET, OPTIONS"),
     ("Access-Control-Allow-Headers", "Content-Type, Authorization, Origin")])

/-- The outbound call of the URL proxy endpoint, `fetch(targetUrl, ...)`,
`url` being `targetUrl` as a string. -/
def proxyCall (url : String) : Outbound :=
  { url := url
    method := "GET"
    headers := [("User-Agent",
      some "Mozilla/5.0 (compatible; GreaterBot/1.0; +https://website)")]
    body := none }

/-- The URL proxy endpoint, with its own `try`/`catch`. -/
def proxyRoute (p : Platform) (request : Request) : Eff Response :=
  Eff.tryCatch
    (do
      let parsed ← Eff.await request.json
      let targetUrl ← Eff.await (destructure parsed "url")
      let url ← Eff.await (toStr targetUrl)
      let response ← Eff.fetch p (proxyCall url)
      let text ← Eff.await response.text
      pure (newResponse
        (some (Json.stringify (objectLiteral [("content", some (Json.str text))])))
        none
        [("Content-Type", "application/json"),
         ("Access-Control-Allow-Origin", "*"),
         ("Access-Control-Allow-Methods", "POST, OPTIONS"),
         ("Access-Control-Allow-Headers", "Content-Type")]))
    (fun error =>
      pure (newResponse
        (some (Json.stringify (objectLiteral
          [("error", some (Json.str "Failed to fetch URL")),
           ("details", some (Json.str error.message))])))
        (some 500)
        [("Content-Type", "application/json"),
         ("Access-Control-Allow-Origin", "*")]))

/-- The headers of the three relay responses. -/
def relayHeaders : List (String × String) :=
  [("Content-Type", "application/json"),
   ("Access-Control-Allow-Origin", "*"),
   ("Access-Control-Allow-Headers", "Content-Type, Authorization, Origin")]

/-- The outbound call of the Sheets create endpoint. -/
def sheetsCreateCall (request : Request) (title headers : Option Json) : Outbound :=
  { url := "https://sheets.googleapis.com/v4/spreadsheets"
    method := "POST"
    headers := [("Authorization", request.authorization),
                ("Content-Type", some "application/json")]
    body := some (Json.stringify (objectLiteral
      [("properties", some (objectLiteral [("title", title)])),
       ("sheets", headers)])) }

/-- The Sheets create endpoint. -/
def sheetsCreateRoute (p : Platform) (request : Request) : Eff Response := do
  let parsed ← Eff.await request.json
  let title ← Eff.await (destructure parsed "title")
  let headers ← Eff.await (destructure parsed "headers")
  let response ← Eff.fetch p (sheetsCreateCall request title headers)
  let result ← Eff.await response.text
  pure (newResponse (some result) none relayHeaders)

/-- The outbound call of the Sheets update endpoint, `spreadsheetId` and
`range` being the two values interpolated in the url, as strings. -/
def sheetsUpdateCall (request : Request) (spreadsheetId range : String)
    (values : Option Json) : Outbound :=
  { url := "https://sheets.googleapis.com/v4/spreadsheets/" ++ spreadsheetId
      ++ "/values/" ++ range ++ "?valueInputOption=RAW"
    method := "PUT"
    headers := [("Authorization", request.authorization),
                ("Content-Type", some "application/json")]
    body := some (Json.stringify (objectLiteral [("values", values)])) }

/-- The Sheets update endpoint. -/
def sheetsUpdateRoute (p : Platform) (request : Request) : Eff Response := do
  let parsed ← Eff.await request.json
  let spreadsheetId ← Eff.await (destructure parsed "spreadsheetId")
  let range ← Eff.await (destructure parsed "range")
  let values ← Eff.await (destructure parsed "values")
  let spreadsheetIdText ← Eff.await (toStr spreadsheetId)
  let rangeText ← Eff.await (toStr range)
  let response ← Eff.fetch p
    (sheetsUpdateCall request spreadsheetIdText rangeText values)
  let result ← Eff.await response.text
  pure (newResponse (some result) none relayHeaders)

/-- The outbound call of the Language API endpoint. -/
def languageAnalyzeCall (request : Request) (content : Option Json) : Outbound :=
  { url := "https://language.googleapis.com/v1/documents:analyzeEntities"
    method := "POST"
    headers := [("Authorization", request.authorization),
                ("Content-Type", some "application/json")]
    body := some (Json.stringify (objectLiteral
      [("document", some (objectLiteral
          [("type", some (Json.str "PLAIN_TEXT")), ("content", content)])),
       ("encodingType", some (Json.str "UTF8"))])) }

/-- The Language API endpoint. -/
def languageAnalyzeRoute (p : Platform) (request : Request) : Eff Response := do
  let parsed ← Eff.await request.json
  let content ← Eff.await (destructure parsed "content")
  let response ← Eff.fetch p (languageAnalyzeCall request content)
  let result ← Eff.await response.text
  pure (newResponse (some result) none relayHeaders)

/-- The response for an unrecognised API path. -/
def apiNotFound : Response :=
  newResponse (some "API endpoint not found") (some 404)
    [("Access-Control-Allow-Origin", "*")]

/-- The body of the `try` block of the API routes: the chain of route tests. -/
def apiRoutes (p : Platform) (request : Request) (env : Env) : Eff Response :=
  if request.pathname = "/api/config" then configRoute env
  else if request.pathname = "/api/proxy" ∧ request.method = "POST" then
    proxyRoute p request
  else if request.pathname = "/api/sheets/create" ∧ request.method = "POST" then
    sheetsCreateRoute p request
  else if request.pathname = "/api/sheets/update" ∧ request.method = "POST" then
    sheetsUpdateRoute p request
  else if request.pathname = "/api/language/analyze" ∧ request.method = "POST" then
    languageAnalyzeRoute p request
  else pure apiNotFound

/-- The response of the router-level `catch`. -/
def apiError (error : JsError) : Response :=
  newResponse
    (some (Json.stringify (objectLiteral [("error", some (Json.str error.message))])))
    (some 500)
    [("Content-Type", "application/json"),
     ("Access-Control-Allow-Origin", "*")]

/-- The handler `fetch(request, env, ctx)` of the worker. The global `fetch` of
the runtime is the parameter `p`; `ctx` is not read by the source; the calls
to `console.log` and `console.error` leave no trace in a response and are not
embedded. -/
def fetch (p : Platform) (request : Request) (env : Env) : Eff Response :=
  if request.method = "OPTIONS" then pure preflightResponse
  else if startsWith request.pathname "/api/" then
    Eff.tryCatch (apiRoutes p request env) (fun error => pure (apiError error))
  else
    Eff.tryCatch (Eff.assets env request)
      (fun _ => pure (newResponse (some "Not Found") (some 404) []))

/-! ## Decoding a JSON body -/

/-- The value of a hexadecimal digit of a `\uXXXX` escape. -/
def hexValue (c : Char) : Option Nat :=
  if 48 ≤ c.toNat ∧ c.toNat ≤ 57 then some (c.toNat - 48)
  else if 97 ≤ c.toNat ∧ c.toNat ≤ 102 then some (c.toNat - 87)
  else if 65 ≤ c.toNat ∧ c.toNat ≤ 70 then some (c.toNat - 55)
  else none

/-- The character a two-character escape of the JSON grammar stands for. -/
def shortEscape (c : Char) : Option Char :=
  if c = '"' then some '"'
  else if c = '\\' then some '\\'
  else if c = '/' then some '/'
  else if c = 'b' then some '\x08'
  else if c = 'f' then some '\x0c'
  else if c = 'n' then some '\n'
  else if c = 'r' then some '\r'
  else if c = 't' then some '\t'
  else none

/-- The character of a `\uXXXX` escape with the four digits given. An escape
that names a surrogate code unit is not decoded: strings are sequences of
Unicode scalar values here. -/
def unicodeUnescape (a b c d : Char) : Option Char :=
  match hexValue a, hexValue b, hexValue c, hexValue d with
  | some x, some y, some z, some w =>
    let n := 4096 * x + 256 * y + 16 * z + w
    if n.isValidChar then some (Char.ofNat n) else none
  | _, _, _, _ => none

/-- The part of `JSON.parse` that reads a string literal, from the character
after the opening quote: the decoded characters and the input left after the
closing quote; `none` where `JSON.parse` throws a `SyntaxError`. -/
def parseChars : List Char → Option (List Char × List Char)
  | [] => none
  | c :: rest =>
    if c = '"' then some ([], rest)
    else if c = '\\' then
      match rest with
      | [] => none
      | e :: rest1 =>
        if e = 'u' then
          match rest1 with
          | a :: b :: c1 :: d :: rest2 =>
            match unicodeUnescape a b c1 d, parseChars rest2 with
            | some ch, some (cs, left) => some (ch :: cs, left)
            | _, _ => none
          | _ => none
        else
          match shortEscape e, parseChars rest1 with
          | some ch, some (cs, left) => some (ch :: cs, left)
          | _, _ => none
    else if c.toNat < 32 then none
    else
      match parseChars rest with
      | some (cs, left) => some (c :: cs, left)
      | none => none

/-- The part of `JSON.parse` that reads a string literal at the head of the
input. -/
def parseString : List Char → Option (String × List Char)
  | '"' :: rest => (parseChars rest).map fun r => (⟨r.1⟩, r.2)
  | _ => none

/-- The expression `JSON.parse(body)[key]` on a body that is an object of one
member with a string value and no insignificant white space (the texts
`JSON.stringify` produces for such an object); `none` on any other text. -/
def readMember (key : String) (body : String) : Option String :=
  match body.data with
  | '\x7b' :: rest =>
    match parseString rest with
    | some (k, ':' :: rest1) =>
      match parseString rest1 with
      | some (v, ['\x7d']) => if k = key then some v else none
      | _ => none
    | _ => none
  | _ => none

/-! ## Definitions used to state the properties -/

/-- The paths of the three relay routes. -/
def relayPaths : List String :=
  ["/api/sheets/create", "/api/sheets/update", "/api/language/analyze"]

/-- The headers every relay route sends upstream. -/
def relayCallHeaders (request : Request) : List (String × Option String) :=
  [("Authorization", request.authorization), ("Content-Type", some "application/json")]

/-- An outbound call with the relay headers, the `Authorization` value being
`authorization`. -/
def relayCall (url method : String) (authorization : Option String)
    (body : Option String) : Outbound :=
  { url := url
    method := method
    headers := [("Authorization", authorization), ("Content-Type", some "application/json")]
    body := body }

/-- The outcome of a relay route once its outbound call is made: the upstream
text under the relay headers, or the failure of the call or of reading it. -/
def relayOutcome (p : Platform) (call : Outbound) : Except JsError Response :=
  match p.fetch call with
  | .ok up =>
    match up.text with
    | .ok b => .ok (newResponse (some b) none relayHeaders)
    | .error e => .error e
  | .error e => .error e

/-- The response of the `catch` of the proxy endpoint. -/
def proxyError (error : JsError) : Response :=
  newResponse
    (some (Json.stringify (Json.obj
      [("error", Json.str "Failed to fetch URL"), ("details", Json.str error.message)])))
    (some 500)
    [("Content-Type", "application/json"), ("Access-Control-Allow-Origin", "*")]

/-- The response of the proxy endpoint for the fetched text. -/
def proxyContent (text : String) : Response :=
  newResponse (some (Json.stringify (Json.obj [("content", Json.str text)]))) none
    [("Content-Type", "application/json"),
     ("Access-Control-Allow-Origin", "*"),
     ("Access-Control-Allow-Methods", "POST, OPTIONS"),
     ("Access-Control-Allow-Headers", "Content-Type")]

/-- The first failure of the proxy endpoint inside its `try` block, in
evaluation order: parsing the request body, destructuring it, converting the
target to a string, the outbound fetch, reading the response text; `none`
when all five succeed. -/
def proxyFailure (p : Platform) (request : Request) : Option JsError :=
  match request.json with
  | .error e => some e
  | .ok v =>
    match destructure v "url" with
    | .error e => some e
    | .ok u =>
      match toStr u with
      | .error e => some e
      | .ok url =>
        match p.fetch (proxyCall url) with
        | .error e => some e
        | .ok up =>
          match up.text with
          | .error e => some e
          | .ok _ => none

/-- A platform whose upstream answers every call with status 401. -/
def unauthorizedPlatform : Platform :=
  { fetch := fun _ => .ok { status := 401, text := .ok "denied" } }

/-- A platform whose upstream rejects every call. -/
def failingPlatform : Platform :=
  { fetch := fun _ => .error { message := "Network connection lost" } }

/-- A platform whose upstream answers every call with the page of the
proxy example. -/
def examplePlatform : Platform :=
  { fetch := fun _ => .ok { status := 200, text := .ok "<html>Hi</html>" } }

/-- Bindings with an asset store that misses every lookup. -/
def emptyEnv : Env :=
  { GOOGLE_CLIENT_ID := some "client-id"
    GOOGLE_API_KEY := none
    ASSETS := fun _ => .error { message := "no such asset" } }

/-- Bindings with an asset store that holds one page, at `/index.html`. -/
def siteEnv : Env :=
  { GOOGLE_CLIENT_ID := some "client-id"
    GOOGLE_API_KEY := none
    ASSETS := fun request =>
      if request.pathname = "/index.html" then
        .ok { body := some "<h1>Guests</h1>", status := 200,
              headers := [("Content-Type", "text/html")] }
      else .error { message := "no such asset" } }

/-- A request with a bearer token and the given method, path and parsed body. -/
def sampleRequest (method pathname : String) (json : Except JsError Json) : Request :=
  { method := method, pathname := pathname, authorization := some "Bearer abc", json := json }

/-- The status of the response of a run, `none` when the run throws. -/
def statusOf (run : Except JsError Response × List Event) : Option Nat :=
  match run.1 with
  | .ok r => some r.status
  | .error _ => none

/-- The body of the response of a run, `none` when the run throws or the
response has no body. -/
def bodyOf (run : Except JsError Response × List Event) : Option String :=
  match run.1 with
  | .ok r => r.body
  | .error _ => none

/-- The value of a header of the response of a run. -/
def headerOf (run : Except JsError Response × List Event) (name : String) : Option String :=
  match run.1 with
  | .ok r => r.header name
  | .error _ => none

end Worker

/-! ## The readiness managers (`sheets-api-manager.js`, `greater-fetch-analyze.js`)

A manager holds `initPromise`, `null` or a reference to a promise. The promises
`initialize()` creates are kept in a heap, a reference being an index into it.
The executor passed to `new Promise` is an async function: it runs at once, up
to its `await`, before `new Promise` returns and the result is assigned to
`this.initPromise`; what follows the `await` runs later, when the awaited load
settles (`resume`). -/

/-- The state of a promise. -/
inductive PromiseState where
  | pending
  | fulfilled
  | rejected (error : Worker.JsError)
deriving DecidableEq, Repr

/-- A manager object together with the promises its `initialize()` calls have
created, the executors suspended at their `await`, each named by the promise
it settles, and the arguments of the calls made to `gapi.client.load`. -/
structure Manager where
  initPromise : Option Nat
  promises : List PromiseState
  suspended : List Nat
  loads : List (List String)
deriving DecidableEq, Repr

/-- The manager after its constructor: `this.initPromise = null`. -/
def Manager.new : Manager :=
  { initPromise := none, promises := [], suspended := [], loads := [] }

/-- The property `status` read on a promise object: a native `Promise` has no
such property, whatever its state, so the read gives `undefined`. -/
def statusProperty (_ : PromiseState) : Option String :=
  none

namespace SheetsAPIManager

/-- The field `DISCOVERY_DOC` set by the constructor. -/
def DISCOVERY_DOC : String :=
  "https://sheets.googleapis.com/$discovery/rest?version=v4"

/-- The method `initialize()` (named `init` here, the source name being a
reserved word), given whether `window.gapi?.client` is truthy:
the state after the call and the promise whose outcome the call returns. With
`initPromise` set, that promise is returned. Otherwise a promise is created and
its executor run: without the client it throws, and its `catch` sets
`initPromise` to `null` and rejects the promise; with the client it calls
`gapi.client.load` twice and suspends at the `await`. The new promise is
assigned to `initPromise` after the executor has returned. -/
def init (gapiClient : Bool) (m : Manager) : Manager × Nat :=
  match m.initPromise with
  | some ref => (m, ref)
  | none =>
    let ref := m.promises.length
    let afterExecutor : Manager :=
      if !gapiClient then
        { m with
          initPromise := none
          promises := m.promises ++ [PromiseState.rejected
            { message := "Failed to initialize Sheets API: " ++
                "Google API client not available" }] }
      else
        { m with
          promises := m.promises ++ [PromiseState.pending]
          suspended := m.suspended ++ [ref]
          loads := m.loads ++ [[DISCOVERY_DOC], ["drive", "v3"]] }
    ({ afterExecutor with initPromise := some ref }, ref)

/-- The rest of the executor of the promise `ref`, run when the awaited
`Promise.all` of the two loads settles: `resolve()` when both loads succeeded;
otherwise the `catch`, which sets `initPromise` to `null` and rejects the
promise. -/
def resume (ref : Nat) (outcome : Except Worker.JsError Unit) (m : Manager) : Manager :=
  if ref ∈ m.suspended then
    match outcome with
    | .ok _ =>
      { m with
        promises := m.promises.set ref PromiseState.fulfilled
        suspended := m.suspended.erase ref }
    | .error error =>
      { m with
        initPromise := none
        promises := m.promises.set ref (PromiseState.rejected
          { message := "Failed to initialize Sheets API: " ++ error.message })
        suspended := m.suspended.erase ref }
  else m

/-- The method `isInitialized()`, as a truth value:
`this.initPromise && this.initPromise.status !== "rejected"`. -/
def isInitialized (m : Manager) : Bool :=
  match m.initPromise with
  | none => false
  | some ref => statusProperty (m.promises.getD ref PromiseState.pending) != some "rejected"

end SheetsAPIManager

namespace LanguageAPIManager

/-- The field `DISCOVERY_DOC` set by the constructor. -/
def DISCOVERY_DOC : String :=
  "https://language.googleapis.com/$discovery/rest?version=v1"

/-- The method `initialize()` (named `init` here, the source name being a
reserved word), given whether `window.gapi?.client` is truthy:
the state after the call and the promise whose outcome the call returns. With
`initPromise` set, that promise is returned. Otherwise a promise is created and
its executor run: without the client it throws, and its `catch` sets
`initPromise` to `null` and rejects the promise; with the client it calls
`gapi.client.load` and suspends at the `await`. The new promise is assigned to
`initPromise` after the executor has returned. -/
def init (gapiClient : Bool) (m : Manager) : Manager × Nat :=
  match m.initPromise with
  | some ref => (m, ref)
  | none =>
    let ref := m.promises.length
    let afterExecutor : Manager :=
      if !gapiClient then
        { m with
          initPromise := none
          promises := m.promises ++ [PromiseState.rejected
            { message := "Failed to initialize Language API: " ++
                "Google API client not available" }] }
      else
        { m with
          promises := m.promises ++ [PromiseState.pending]
          suspended := m.suspended ++ [ref]
          loads := m.loads ++ [[DISCOVERY_DOC]] }
    ({ afterExecutor with initPromise := some ref }, ref)

/-- The rest of the executor of the promise `ref`, run when the awaited load
settles: `resolve(true)` when the load succeeded; otherwise the `catch`, which
sets `initPromise` to `null` and rejects the promise. -/
def resume (ref : Nat) (outcome : Except Worker.JsError Unit) (m : Manager) : Manager :=
  if ref ∈ m.suspended then
    match outcome with
    | .ok _ =>
      { m with
        promises := m.promises.set ref PromiseState.fulfilled
        suspended := m.suspended.erase ref }
    | .error error =>
      { m with
        initPromise := none
        promises := m.promises.set ref (PromiseState.rejected
          { message := "Failed to initialize Language API: " ++ error.message })
        suspended := m.suspended.erase ref }
  else m

/-- The method `isInitialized()`, as a truth value:
`this.initPromise && this.initPromise.status !== "rejected"`. -/
def isInitialized (m : Manager) : Bool :=
  match m.initPromise with
  | none => false
  | some ref => statusProperty (m.promises.getD ref PromiseState.pending) != some "rejected"

end LanguageAPIManager


/-! ## The Google API client library, as the page sees it -/

/-- An access token object, as far as it is read: `expires_at` is a time in
milliseconds, or `undefined`. -/
structure Token where
  expires_at : Option Nat
deriving DecidableEq, Repr

/-- The global `gapi`: not loaded, loaded without `gapi.client`, or with the
client, in which case `token` is what `gapi.client.getToken()` returns (`null`
or a token object). -/
inductive Gapi where
  | undefined
  | noClient
  | client (token : Option Token)
deriving DecidableEq, Repr

/-- The expression `window.gapi?.client`, as a truth value. -/
def Gapi.hasClient : Gapi → Bool
  | .client _ => true
  | _ => false

/-- The expression `gapi.client.getToken()`: it throws when `gapi` or
`gapi.client` is missing. -/
def Gapi.getToken : Gapi → Except Worker.JsError (Option Token)
  | .undefined => .error { message := "gapi is not defined" }
  | .noClient =>
    .error { message := "Cannot read properties of undefined (reading 'getToken')" }
  | .client token => .ok token

/-- The object `{ allowed, reason }` returned by `canMakeApiCalls()`. -/
structure ApiStatus where
  allowed : Bool
  reason : Option String
deriving DecidableEq, Repr

/-- The condition `token.expires_at && token.expires_at < currentTime`: a
missing or zero `expires_at` is falsy. -/
def Token.expiredAt (token : Token) (currentTime : Nat) : Bool :=
  match token.expires_at with
  | none => false
  | some t => t != 0 && decide (t < currentTime)

namespace SheetsAPIManager

/-- The method `canMakeApiCalls()`, `currentTime` being the value of
`Date.now()`: the gates in source order. -/
def canMakeApiCalls (gapi : Gapi) (currentTime : Nat) (m : Manager) :
    Except Worker.JsError ApiStatus :=
  if !isInitialized m then
    .ok { allowed := false, reason := some "API not initialized" }
  else if !gapi.hasClient then
    .ok { allowed := false, reason := some "Google API client not available" }
  else
    match gapi.getToken with
    | .error e => .error e
    | .ok none => .ok { allowed := false, reason := some "No access token available" }
    | .ok (some token) =>
      if token.expiredAt currentTime then
        .ok { allowed := false, reason := some "Token expired" }
      else .ok { allowed := true, reason := none }

end SheetsAPIManager

namespace LanguageAPIManager

/-- The method `canMakeApiCalls()`: the gates in source order; the call of
`gapi.client.getToken()` is not guarded and may throw. -/
def canMakeApiCalls (gapi : Gapi) (m : Manager) : Except Worker.JsError ApiStatus :=
  if !isInitialized m then
    .ok { allowed := false, reason := some "Language API not initialized" }
  else
    match gapi.getToken with
    | .error e => .error e
    | .ok none => .ok { allowed := false, reason := some "No access token available" }
    | .ok (some _) => .ok { allowed := true, reason := none }

end LanguageAPIManager

/-! ## JavaScript strings, as the components use them -/

/-- The number of UTF-16 code units of a character. -/
def utf16Units (c : Char) : Nat :=
  if c.toNat < 65536 then 1 else 2

/-- The property `length` of a string: its number of UTF-16 code units. -/
def jsLength (s : String) : Nat :=
  (s.data.map utf16Units).sum

/-- The characters `String.prototype.trim` removes: the white space and line
terminator code points of ECMA-262. -/
def isTrimmable (c : Char) : Bool :=
  c.toNat = 9 || c.toNat = 10 || c.toNat = 11 || c.toNat = 12 || c.toNat = 13 ||
  c.toNat = 32 || c.toNat = 160 || c.toNat = 5760 ||
  (decide (8192 ≤ c.toNat) && decide (c.toNat ≤ 8202)) ||
  c.toNat = 8232 || c.toNat = 8233 || c.toNat = 8239 || c.toNat = 8287 ||
  c.toNat = 12288 || c.toNat = 65279

/-- The built-in `String.prototype.trim`. -/
def jsTrim (s : String) : String :=
  ⟨((s.data.dropWhile isTrimmable).reverse.dropWhile isTrimmable).reverse⟩

/-- Whether `sub` occurs in the characters `s`, at any position. -/
def occursIn (sub : List Char) : List Char → Bool
  | [] => sub.isEmpty
  | c :: cs => sub.isPrefixOf (c :: cs) || occursIn sub cs

/-- The built-in `String.prototype.includes`. -/
def jsIncludes (s sub : String) : Bool :=
  occursIn sub.data s.data

/-! ## The page components: effects and services -/

namespace Client

/-- A reading of the clock: what `toISOString()` and `toLocaleString()` give for
a `new Date()` made at that time, and what `Date.now()` returns. -/
structure DateReading where
  iso : String
  locale : String
  ms : Nat
deriving DecidableEq, Repr

/-- The `detail` of a `greater-error` event that carries an error. The `stack`
text, which the engine produces, is not embedded. -/
structure ErrorDetail where
  timestamp : String
  component : String
  type : String
  message : String
  technical : String
  critical : Bool
deriving DecidableEq, Repr

/-- The `detail` of a custom event: an error, `null`, or the sheet reference
`{ id, name, created }`. -/
inductive Detail where
  | error (detail : ErrorDetail)
  | null
  | sheet (id : Option String) (name created : String)
deriving DecidableEq, Repr

/-- One entry of `sheets` in a spreadsheet create request. -/
structure Tab where
  title : String
  frozenRowCount : Nat
deriving DecidableEq, Repr

/-- A request to a service: the four `gapi.client` methods the components call
and the POST to `/api/proxy`. -/
inductive Call where
  | spreadsheetsCreate (title : String) (sheets : List Tab)
  | valuesUpdate (spreadsheetId : Option String) (range valueInputOption : String)
      (values : List (List String))
  | valuesClear (spreadsheetId : Option String) (range : String)
  | analyzeEntities (content type : String)
  | proxy (url : String)
deriving DecidableEq, Repr

/-- What a component does to the world around it, in order: a request, a
`sessionStorage.setItem`, a `dispatchEvent`, a `requestUpdate()`, a
`form.reset()`. -/
inductive Effect where
  | call (request : Call)
  | setItem (key value : String)
  | dispatch (name : String) (detail : Detail)
  | requestUpdate
  | formReset
deriving DecidableEq, Repr

/-- The `result` of a spreadsheet create response, as far as it is read. -/
structure SheetResult where
  spreadsheetId : Option String
  spreadsheetUrl : Option String
deriving DecidableEq, Repr

/-- The response of `spreadsheets.create`: `result` may be missing. -/
structure CreateResponse where
  result : Option SheetResult
deriving DecidableEq, Repr

/-- A salience score. It is a floating-point number in the source; it is known
here by the text `toFixed(3)` gives for it. -/
structure Salience where
  toFixed3 : String
deriving DecidableEq, Repr

/-- An entity of an analysis result, as far as it is read. -/
structure Entity where
  name : String
  type : String
  salience : Salience
deriving DecidableEq, Repr

/-- The `result` of an analysis response: `entities` may be missing. -/
structure AnalyzeResult where
  entities : Option (List Entity)
deriving DecidableEq, Repr

/-- The response of `documents.analyzeEntities`: `result` may be missing. -/
structure AnalyzeResponse where
  result : Option AnalyzeResult
deriving DecidableEq, Repr

/-- The response of the POST to `/api/proxy`: `response.ok` and the outcome of
`await response.json()`. -/
structure ProxyResponse where
  ok : Bool
  json : Except Worker.JsError Worker.Json

/-- The services a component awaits and the clock it reads. Each answer may
depend on what the component has done so far; a request resolves to a
response or rejects, a rejection being taken to be an `Error` with a
`message`. `urlParses` tells whether `new URL(url)` succeeds. -/
structure Services where
  clock : List Effect → DateReading
  create : List Effect → String → List Tab → Except Worker.JsError CreateResponse
  update : List Effect → Option String → String → List (List String) →
    Except Worker.JsError Unit
  clear : List Effect → Option String → String → Except Worker.JsError Unit
  analyze : List Effect → String → Except Worker.JsError AnalyzeResponse
  proxy : List Effect → String → Except Worker.JsError ProxyResponse
  urlParses : String → Bool

/-- A computation of a component: it extends the list of effects and either
returns a value or throws. -/
def Eff (α : Type) : Type :=
  List Effect → Except Worker.JsError α × List Effect

/-- Return a value. -/
def Eff.pure {α : Type} (a : α) : Eff α :=
  fun log => (.ok a, log)

/-- Sequence two computations; a throw skips the second. -/
def Eff.bind {α β : Type} (m : Eff α) (f : α → Eff β) : Eff β :=
  fun log =>
    match m log with
    | (.ok a, log1) => f a log1
    | (.error e, log1) => (.error e, log1)

instance : Monad Eff where
  pure := Eff.pure
  bind := Eff.bind

/-- The statement `throw error`. -/
def Eff.throw {α : Type} (error : Worker.JsError) : Eff α :=
  fun log => (.error error, log)

/-- The statement `try { body } catch (error) { handler }`. -/
def Eff.tryCatch {α : Type} (body : Eff α) (handler : Worker.JsError → Eff α) : Eff α :=
  fun log =>
    match body log with
    | (.ok a, log1) => (.ok a, log1)
    | (.error e, log1) => handler e log1

/-- The expression `await outcome` on a settled promise, or an expression that
may throw. -/
def Eff.await {α : Type} (outcome : Except Worker.JsError α) : Eff α :=
  fun log => (outcome, log)

/-- Perform an effect. -/
def Eff.emit (effect : Effect) : Eff Unit :=
  fun log => (.ok (), log ++ [effect])

/-- The expression `new Date()`. -/
def Eff.newDate (sv : Services) : Eff DateReading :=
  fun log => (.ok (sv.clock log), log)

/-- Send a request without awaiting it: the promise of its response. -/
def Eff.start {α : Type} (request : Call)
    (respond : List Effect → Except Worker.JsError α) : Eff (Except Worker.JsError α) :=
  fun log => (.ok (respond log), log ++ [Effect.call request])

/-- The call `gapi.client.sheets.spreadsheets.values.update(...)`, not yet
awaited, with `valueInputOption: "RAW"` as everywhere in the source. -/
def startUpdate (sv : Services) (spreadsheetId : Option String) (range : String)
    (values : List (List String)) : Eff (Except Worker.JsError Unit) :=
  Eff.start (Call.valuesUpdate spreadsheetId range "RAW" values)
    (fun log => sv.update log spreadsheetId range values)

/-- A value that is truthy as a string: neither `undefined` nor empty. -/
def truthy (value : Option String) : Bool :=
  match value with
  | none => false
  | some s => s != ""

end Client

/-! ## The sheet creation component (`greater-create-sheet.js`) -/

namespace GreaterCreateSheet

open Client

/-- The reactive properties of the component, with `sheetId` and `sheetUrl`. -/
structure State where
  isLoading : Bool
  sheetCreated : Bool
  apiReady : Bool
  pendingAnalyzeMount : Bool
  guestName : String
  sheetId : Option String
  sheetUrl : Option String
deriving DecidableEq, Repr

/-- The state the constructor sets. -/
def State.new : State :=
  { isLoading := false, sheetCreated := false, apiReady := false,
    pendingAnalyzeMount := false, guestName := "", sheetId := none, sheetUrl := none }

/-- The method `dispatchError(message, error)`. -/
def dispatchError (sv : Services) (message : String) (error : Worker.JsError) : Eff Unit :=
  fun log =>
    (.ok (), log ++ [Effect.dispatch "greater-error" (Detail.error
      { timestamp := (sv.clock log).iso
        component := "greater-create-sheet"
        type := "ERROR"
        message := message
        technical := error.message
        critical := false })])

/-- The character class `[a-zA-Z0-9 '-]` of the regular expression. -/
def inNameClass (c : Char) : Bool :=
  (decide (97 ≤ c.toNat) && decide (c.toNat ≤ 122)) ||
  (decide (65 ≤ c.toNat) && decide (c.toNat ≤ 90)) ||
  (decide (48 ≤ c.toNat) && decide (c.toNat ≤ 57)) ||
  c.toNat = 32 || c.toNat = 39 || c.toNat = 45

/-- The test `/^[a-zA-Z0-9 '-]+$/.test(name)`: one or more characters, all of
the class. -/
def nameRegexTest (name : String) : Bool :=
  !name.data.isEmpty && name.data.all inNameClass

/-- The method `validateGuestName(name)`. -/
def validateGuestName (sv : Services) (name : String) : Eff Bool :=
  if jsLength name < 2 ∨ jsLength name > 50 then do
    dispatchError sv "Guest name must be between 2 and 50 characters"
      { message := "Invalid name length" }
    pure false
  else if !nameRegexTest name then do
    dispatchError sv "Guest name contains invalid characters"
      { message := "Invalid characters" }
    pure false
  else pure true

/-- The header row written to the Bookings tab. -/
def bookingsHeader : List String :=
  ["Confirmation Notes", "Name of Podcast", "Link to Podcast", "Name of Host",
   "Avg Listeners per Episode", "Monthly Listeners", "Followers Count", "Email",
   "Phone Number", "Date Booked", "Time Booked (CST)", "Link to Login to Interview",
   "Notes"]

/-- The `sheets` of the create request. -/
def sheetTabs : List Tab :=
  [{ title := "Bookings", frozenRowCount := 1 },
   { title := "Keywords", frozenRowCount := 1 },
   { title := "Logs", frozenRowCount := 1 }]

/-- The method `createSheet(guestName)`, `manager` being the state of the
Sheets manager. The two updates of the Logs tab are sent one after the other
and awaited together (`Promise.all`); when both reject, the rejection of the
first is taken. The `catch` rethrows. -/
def createSheet (sv : Services) (manager : Manager) (guestName : String) :
    Eff (Option SheetResult) :=
  if !SheetsAPIManager.isInitialized manager then
    Eff.throw { message := "Sheets API not initialized" }
  else
    Eff.tryCatch
      (do
        let created ← Eff.start
          (Call.spreadsheetsCreate (guestName ++ " Lead List & Bookings") sheetTabs)
          (fun log => sv.create log (guestName ++ " Lead List & Bookings") sheetTabs)
        let createResponse ← Eff.await created
        match createResponse.result with
        | none => Eff.throw { message := "Invalid response from sheet creation" }
        | some result =>
          if !truthy result.spreadsheetId then
            Eff.throw { message := "Invalid response from sheet creation" }
          else do
            let bookings ← startUpdate sv result.spreadsheetId "Bookings!A1:M1"
              [bookingsHeader]
            Eff.await bookings
            let keywords ← startUpdate sv result.spreadsheetId "Keywords!A1:C1"
              [["Keyword", "Type", "Relevance"]]
            Eff.await keywords
            let logsHeader ← startUpdate sv result.spreadsheetId "Logs!A1:B1"
              [["Date/Time", "Event"]]
            let date ← Eff.newDate sv
            let firstEntry ← startUpdate sv result.spreadsheetId "Logs!A2:B2"
              [[date.locale, "Sheet created"]]
            Eff.await logsHeader
            Eff.await firstEntry
            pure (some result))
      (fun error => Eff.throw error)

/-- The method `handleSubmit(e)`, `value` being `e.target.guestName.value`:
the state after the handler has run. The `finally` block runs after the `try`
and after the `catch`, which does not throw. -/
def handleSubmit (sv : Services) (manager : Manager) (value : String) (s : State) :
    Eff State :=
  if !s.apiReady then do
    dispatchError sv "Please wait for API initialization" { message := "API not ready" }
    pure s
  else do
    let guestName := jsTrim value
    let valid ← validateGuestName sv guestName
    if !valid then pure s
    else do
      let s1 := { s with isLoading := true }
      let s2 ← Eff.tryCatch
        (do
          let sheet ← createSheet sv manager guestName
          match sheet with
          | none => Eff.throw { message := "Failed to create sheet - no response data" }
          | some sheet =>
            let date ← Eff.newDate sv
            Eff.emit (Effect.setItem "greater-current-sheet-id"
              (Worker.Json.stringify (Worker.objectLiteral
                [("id", sheet.spreadsheetId.map Worker.Json.str),
                 ("name", some (Worker.Json.str guestName)),
                 ("created", some (Worker.Json.str date.iso))])))
            Eff.emit (Effect.dispatch "greater-sheet-created"
              (Detail.sheet sheet.spreadsheetId guestName date.iso))
            Eff.emit Effect.requestUpdate
            pure { s1 with
              sheetCreated := true
              sheetId := sheet.spreadsheetId
              sheetUrl := sheet.spreadsheetUrl
              guestName := guestName
              pendingAnalyzeMount := true })
        (fun error => do
          dispatchError sv "Failed to create sheet" error
          pure s1)
      pure { s2 with isLoading := false }

end GreaterCreateSheet

/-! ## The URL analysis component (`greater-fetch-analyze.js`) -/

namespace GreaterFetchAnalyze

open Client

/-- The reactive properties of the component. -/
structure State where
  isLoading : Bool
  sheetId : Option String
  sheetsApiReady : Bool
  languageApiReady : Bool
  successMessage : String
deriving DecidableEq, Repr

/-- The submitted form, as far as it is read: the value of its `#url` input
(which is also `form.url`), `none` when the form has no such input. -/
structure Form where
  urlInput : Option String
deriving DecidableEq, Repr

/-- The method `dispatchError(message, error)`. -/
def dispatchError (sv : Services) (message : String) (error : Worker.JsError) : Eff Unit :=
  fun log =>
    (.ok (), log ++ [Effect.dispatch "greater-error" (Detail.error
      { timestamp := (sv.clock log).iso
        component := "greater-fetch-analyze"
        type := "ERROR"
        message := message
        technical := error.message
        critical := false })])

/-- The method `clearError()`: a `greater-error` event with `detail: null`. -/
def clearError : Eff Unit :=
  Eff.emit (Effect.dispatch "greater-error" Detail.null)

/-- The expression `value.key` on a JSON value: it throws on `null`, reads the
member of an object, and is `undefined` on the other values. -/
def readProperty (value : Worker.Json) (key : String) :
    Except Worker.JsError (Option Worker.Json) :=
  match value with
  | .null =>
    .error { message := "Cannot read properties of null (reading '" ++ key ++ "')" }
  | .obj members => .ok (Worker.lookupMember key members)
  | _ => .ok none

/-- The truth value of a JavaScript value parsed from JSON. -/
def jsTruthy : Option Worker.Json → Bool
  | none => false
  | some .null => false
  | some (.bool b) => b
  | some (.num text) => text != "0"
  | some (.str s) => s != ""
  | some (.arr _) => true
  | some (.obj _) => true

/-- The method `fetchUrlContent(url)`: the `content` of the proxy response,
which is a JavaScript value. -/
def fetchUrlContent (sv : Services) (url : String) : Eff (Option Worker.Json) := do
  let pending ← Eff.start (Call.proxy url) (fun log => sv.proxy log url)
  let response ← Eff.await pending
  if !response.ok then do
    let error ← Eff.await response.json
    let details ← Eff.await (readProperty error "details")
    if jsTruthy details then do
      let message ← Eff.await (Worker.toStr details)
      Eff.throw { message := message }
    else Eff.throw { message := "Failed to fetch URL content" }
  else do
    let parsed ← Eff.await response.json
    let content ← Eff.await (Worker.destructure parsed "content")
    pure content

/-- The receiver of the call `text.trim()`: the string `text` is, or the
`TypeError` of the call when `text` is not a string. -/
def asText : Option Worker.Json → Except Worker.JsError String
  | some (.str s) => .ok s
  | none => .error { message := "Cannot read properties of undefined (reading 'trim')" }
  | some .null => .error { message := "Cannot read properties of null (reading 'trim')" }
  | some _ => .error { message := "text.trim is not a function" }

/-- The method `validateUrl(url)`. -/
def validateUrl (sv : Services) (url : String) : Eff Bool :=
  if sv.urlParses url then pure true
  else do
    dispatchError sv "Invalid URL format" { message := "URL validation failed" }
    pure false

/-- The method `updateValues(spreadsheetId, range, values)`. -/
def updateValues (sv : Services) (spreadsheetId : Option String) (range : String)
    (values : List (List String)) : Eff Unit := do
  let pending ← startUpdate sv spreadsheetId range values
  Eff.await pending

/-- The method `validateContent(form)`. -/
def validateContent (sv : Services) (form : Form) : Eff Bool :=
  match form.urlInput with
  | none => do
    dispatchError sv "URL is required" { message := "Empty URL provided" }
    pure false
  | some value =>
    if jsTrim value = "" then do
      dispatchError sv "URL is required" { message := "Empty URL provided" }
      pure false
    else pure true

/-- The message of `new Error(status.reason)`. -/
def reasonMessage (status : ApiStatus) : String :=
  status.reason.getD "null"

/-- The method `canMakeApiCalls()` of the component, `sheets` and `language`
being the states of the two managers. Both manager checks are called before
either result is awaited. -/
def canMakeApiCalls (sv : Services) (gapi : Gapi) (sheets language : Manager) : Eff Bool :=
  Eff.tryCatch
    (do
      let token ← Eff.await gapi.getToken
      match token with
      | none => do
        dispatchError sv "Authentication required" { message := "No access token available" }
        pure false
      | some _ => do
        let date ← Eff.newDate sv
        let sheetsPending := SheetsAPIManager.canMakeApiCalls gapi date.ms sheets
        let languageStatus ← Eff.await (LanguageAPIManager.canMakeApiCalls gapi language)
        let sheetsStatus ← Eff.await sheetsPending
        if !sheetsStatus.allowed then do
          dispatchError sv "Sheets API not ready" { message := reasonMessage sheetsStatus }
          pure false
        else if !languageStatus.allowed then do
          dispatchError sv "Language API not ready"
            { message := reasonMessage languageStatus }
          pure false
        else pure true)
    (fun error => do
      dispatchError sv "API check failed" error
      pure false)

/-- The constant `MAX_CONTENT_SIZE`. -/
def MAX_CONTENT_SIZE : Nat :=
  1024 * 1024

/-- The text of `(contentSize / 1024 / 1024).toFixed(1)`: the quotient is exact
in floating point, and `toFixed(1)` rounds it to the nearest tenth, a tie going
up. -/
def megabytesToFixed1 (contentSize : Nat) : String :=
  toString ((20 * contentSize + 1048576) / 2097152 / 10) ++ "." ++
    toString ((20 * contentSize + 1048576) / 2097152 % 10)

/-- The rows made of the entities of an analysis: the entities of type
`PERSON`, each as name, type and salience to three decimals. -/
def personRows (entities : List Entity) : List (List String) :=
  (entities.filter fun entity => entity.type == "PERSON").map
    fun entity => [entity.name, entity.type, entity.salience.toFixed3]

/-- The expression `result.result.entities`, with its `TypeError` when
`result.result` is missing. -/
def entitiesOf (response : AnalyzeResponse) : Except Worker.JsError (Option (List Entity)) :=
  match response.result with
  | none =>
    .error { message := "Cannot read properties of undefined (reading 'entities')" }
  | some result => .ok result.entities

/-- The receiver of the call `.filter(...)`, with its `TypeError` when
`entities` is missing. -/
def asList (entities : Option (List Entity)) : Except Worker.JsError (List Entity) :=
  match entities with
  | none => .error { message := "Cannot read properties of undefined (reading 'filter')" }
  | some list => .ok list

/-- The inner `try` block of `handleSubmit`, from the fetch of the page to the
reset of the form, in the state `s` (with `isLoading` set): the state it
leaves. -/
def analysis (sv : Services) (url : String) (s : State) : Eff State := do
  let content ← fetchUrlContent sv url
  let text ← Eff.await (asText content)
  if jsTrim text = "" then Eff.throw { message := "URL returned empty content" }
  else
    let contentSize := text.utf8ByteSize
    if contentSize > MAX_CONTENT_SIZE then
      Eff.throw { message := "URL content exceeds size limit (" ++
        megabytesToFixed1 contentSize ++ "MB > 1MB)" }
    else do
      let pending ← Eff.start (Call.analyzeEntities text "PLAIN_TEXT")
        (fun log => sv.analyze log text)
      let result ← Eff.await pending
      let found ← Eff.await (entitiesOf result)
      let list ← Eff.await (asList found)
      let entities := personRows list
      let cleared ← Eff.start (Call.valuesClear s.sheetId "Keywords!A2:C")
        (fun log => sv.clear log s.sheetId "Keywords!A2:C")
      Eff.await cleared
      if entities.length > 0 then
        updateValues sv s.sheetId ("Keywords!A2:C" ++ toString (entities.length + 1)) entities
      else pure ()
      let date ← Eff.newDate sv
      updateValues sv s.sheetId "Logs!A2:B2"
        [[date.locale,
          "URL analyzed: " ++ url ++ " (found " ++ toString entities.length ++
            " person entities)"]]
      Eff.emit Effect.formReset
      pure { s with
        successMessage := "Analysis complete! Found " ++ toString entities.length ++
          " person mentions." }

/-- The `catch` block of the inner `try` of `handleSubmit`: a content error is
logged to the sheet, a failure of that write being ignored; the error is
dispatched and the success message cleared. -/
def analysisFailed (sv : Services) (url : String) (s : State) (error : Worker.JsError) :
    Eff State := do
  if jsIncludes error.message "empty content" || jsIncludes error.message "size limit" then do
    let date ← Eff.newDate sv
    let _ ← startUpdate sv s.sheetId "Logs!A2:B2"
      [[date.locale, "Error: " ++ error.message ++ " - " ++ url]]
    pure ()
  else pure ()
  dispatchError sv "Failed to analyze URL" error
  pure { s with successMessage := "" }

/-- The method `handleSubmit(e)`, `form` being `e.target`: the state after the
handler has run. The `finally` block runs after the inner `try` and after its
`catch`, which does not throw. -/
def handleSubmit (sv : Services) (gapi : Gapi) (sheets language : Manager) (form : Form)
    (s : State) : Eff State := do
  clearError
  let s0 := { s with successMessage := "" }
  let valid ← validateContent sv form
  if !valid then pure s0
  else
    Eff.tryCatch
      (do
        let canProceed ← canMakeApiCalls sv gapi sheets language
        if !canProceed then pure s0
        else if !truthy s0.sheetId then do
          dispatchError sv "No active sheet found" { message := "Missing sheet ID" }
          pure s0
        else
          match form.urlInput with
          | none =>
            Eff.throw { message := "Cannot read properties of undefined (reading 'value')" }
          | some value => do
            let url := jsTrim value
            let validUrl ← validateUrl sv url
            if !validUrl then pure s0
            else do
              let s1 := { s0 with isLoading := true }
              let s2 ← Eff.tryCatch (analysis sv url s1) (analysisFailed sv url s1)
              pure { s2 with isLoading := false })
      (fun error => do
        dispatchError sv "Failed to verify API access" error
        pure s0)

end GreaterFetchAnalyze

/-! ## The error list component (`greater-errors.js`) -/

namespace GreaterErrors

/-- An error object received as the `detail` of a `greater-error` event. `ref`
names the object: two error objects are the same object (`===`) exactly when
they are equal here. -/
structure ErrorObject where
  ref : Nat
  detail : Client.ErrorDetail
deriving DecidableEq, Repr

/-- The component: its `errors` and the pending `setTimeout` callbacks, each of
which is to remove the error it holds. -/
structure State where
  errors : List ErrorObject
  timers : List ErrorObject
deriving DecidableEq, Repr

/-- The state the constructor sets. -/
def State.new : State :=
  { errors := [], timers := [] }

/-- The built-in `Array.prototype.slice(-n)`: the last `n` elements. -/
def sliceFromEnd (n : Nat) (xs : List ErrorObject) : List ErrorObject :=
  xs.drop (xs.length - n)

/-- The method `removeError(errorToRemove)`. -/
def removeError (errorToRemove : ErrorObject) (s : State) : State :=
  { s with errors := s.errors.filter fun error => error != errorToRemove }

/-- The method `handleError(event)`, `detail` being `event.detail`, `null` or an
error object. -/
def handleError (detail : Option ErrorObject) (s : State) : State :=
  match detail with
  | none => { s with errors := [] }
  | some error =>
    let s1 := { s with errors := sliceFromEnd 3 (s.errors ++ [error]) }
    if !error.detail.critical then { s1 with timers := s1.timers ++ [error] }
    else s1

/-- The callback of a timer set by `handleError`, run when the timer for
`error` expires: `this.removeError(error)`. Nothing happens when no such timer
is pending. -/
def timerExpires (error : ErrorObject) (s : State) : State :=
  if error ∈ s.timers then
    removeError error { s with timers := s.timers.erase error }
  else s

/-- What can happen to the component: a `greater-error` event, a click on the
dismiss button of an error, the expiry of a timer. -/
inductive Step where
  | event (detail : Option ErrorObject)
  | dismiss (error : ErrorObject)
  | expiry (error : ErrorObject)
deriving DecidableEq, Repr

/-- The state after one step. -/
def step (s : State) : Step → State
  | .event detail => handleError detail s
  | .dismiss error => removeError error s
  | .expiry error => timerExpires error s

/-- The state after a sequence of steps. -/
def run (steps : List Step) (s : State) : State :=
  steps.foldl step s

/-- Whether a step is a `greater-error` event that carries an error. -/
def Step.addsError : Step → Bool
  | .event (some _) => true
  | _ => false

end GreaterErrors

/-! ## Definitions used to state the properties of the components -/

/-- The characters the specification allows in a guest name: the ASCII
letters, the digits, the space, the apostrophe and the hyphen. -/
def allowedNameCharacters : String :=
  "abcdefghijklmnopqrstuvwxyzABCDEFGHIJKLMNOPQRSTUVWXYZ0123456789 '-"

/-- A guest name the specification accepts: between 2 and 50 code units, all
of them allowed characters. -/
def ValidGuestName (name : String) : Prop :=
  2 ≤ jsLength name ∧ jsLength name ≤ 50 ∧
    ∀ c ∈ name.data, c ∈ allowedNameCharacters.data

instance (name : String) : Decidable (ValidGuestName name) := by
  unfold ValidGuestName
  infer_instance

/-- The number of columns of a range in A1 form with one-letter columns, such
as `Bookings!A1:M1`: the letters after `!` and after `:` give the first and
the last column. -/
def rangeColumns (range : String) : Option Nat :=
  match (range.data.dropWhile (fun c => c != '!')).drop 1 with
  | first :: rest =>
    match (rest.dropWhile (fun c => c != ':')).drop 1 with
    | last :: _ =>
      if 65 ≤ first.toNat ∧ first.toNat ≤ last.toNat ∧ last.toNat ≤ 90 then
        some (last.toNat - first.toNat + 1)
      else none
    | [] => none
  | [] => none

/-- Services that answer every request with success: the create request with
the spreadsheet `sheet-1`, the analysis with the entities given, the proxy with
the page text given. -/
def okServices (entities : List Client.Entity) (text : String) : Client.Services :=
  { clock := fun log =>
      { iso := "2024-05-01T10:00:00.000Z"
        locale := "5/1/2024, 10:00:0" ++ toString log.length
        ms := 1714557600000 + log.length }
    create := fun _ _ _ =>
      .ok { result := some { spreadsheetId := some "sheet-1",
                             spreadsheetUrl := some "https://docs.google.com/d/sheet-1" } }
    update := fun _ _ _ _ => .ok ()
    clear := fun _ _ _ => .ok ()
    analyze := fun _ _ => .ok { result := some { entities := some entities } }
    proxy := fun _ _ =>
      .ok { ok := true
            json := .ok (Worker.Json.obj [("content", Worker.Json.str text)]) }
    urlParses := fun _ => true }

/-- A Sheets manager whose `initialize()` has succeeded. -/
def readySheetsManager : Manager :=
  SheetsAPIManager.resume 0 (.ok ()) (SheetsAPIManager.init true Manager.new).1

/-- A Language manager whose `initialize()` has succeeded. -/
def readyLanguageManager : Manager :=
  LanguageAPIManager.resume 0 (.ok ()) (LanguageAPIManager.init true Manager.new).1

/-- A page text of exactly 1,048,576 bytes: that many letters `a`. -/
def oneMegabyteText : String :=
  ⟨List.replicate 1048576 'a'⟩

/-- A page text of 1,048,577 bytes. -/
def overOneMegabyteText : String :=
  ⟨List.replicate 1048577 'a'⟩

/-- The range and the values of an effect that is an update of cell values. -/
def updateOf : Client.Effect → Option (String × List (List String))
  | .call (.valuesUpdate _ range _ values) => some (range, values)
  | _ => none

/-- The rows a range holds after the effects: the values of the last update
sent to that range, `none` when there was none. An update sets the cells of
its range, whatever they held. -/
def lastWritten (range : String) (effects : List Client.Effect) :
    Option (List (List String)) :=
  ((effects.filterMap updateOf).reverse.find? fun w => w.1 = range).map Prod.snd

/-- The ranges of the updates sent to the Logs tab, in order. -/
def logsRanges (effects : List Client.Effect) : List String :=
  ((effects.filterMap updateOf).map Prod.fst).filter fun range =>
    Worker.startsWith range "Logs!"

/-- Whether an effect is an entity-analysis request. -/
def isAnalysis : Client.Effect → Bool
  | .call (.analyzeEntities _ _) => true
  | _ => false

/-- A critical error object. -/
def criticalError : GreaterErrors.ErrorObject :=
  { ref := 0
    detail :=
      { timestamp := "2024-05-01T10:00:00.000Z", component := "sheets-example",
        type := "ERROR", message := "Authentication not ready",
        technical := "Token client not initialized", critical := true } }

/-- A non-critical error object with the reference given. -/
def plainError (ref : Nat) : GreaterErrors.ErrorObject :=
  { ref := ref
    detail :=
      { timestamp := "2024-05-01T10:00:01.000Z", component := "greater-fetch-analyze",
        type := "ERROR", message := "Invalid URL format",
        technical := "URL validation failed", critical := false } }

/-- A state of the URL analysis component with an active sheet. -/
def analyzeState : GreaterFetchAnalyze.State :=
  { isLoading := false, sheetId := some "sheet-1", sheetsApiReady := true,
    languageApiReady := true, successMessage := "" }

/-- Two persons and a place, as an analysis returns them. -/
def sampleEntities : List Client.Entity :=
  [{ name := "Ada", type := "PERSON", salience := { toFixed3 := "0.512" } },
   { name := "London", type := "LOCATION", salience := { toFixed3 := "0.100" } },
   { name := "Bob", type := "PERSON", salience := { toFixed3 := "0.050" } }]

/-- Every pending timer of the error list holds a non-critical error. -/
def GreaterErrors.TimersPlain (s : GreaterErrors.State) : Prop :=
  ∀ t ∈ s.timers, t.detail.critical = false
namespace Worker

/-! ## Lemmas on the decoder -/

theorem parseChars_cons (c : Char) (rest : List Char) :
    parseChars (c :: rest) =
      if c = '"' then some ([], rest)
      else if c = '\\' then
        match rest with
        | [] => none
        | e :: rest1 =>
          if e = 'u' then
            match rest1 with
            | a :: b :: c1 :: d :: rest2 =>
              match unicodeUnescape a b c1 d, parseChars rest2 with
              | some ch, some (cs, left) => some (ch :: cs, left)
              | _, _ => none
            | _ => none
          else
            match shortEscape e, parseChars rest1 with
            | some ch, some (cs, left) => some (ch :: cs, left)
            | _, _ => none
      else if c.toNat < 32 then none
      else
        match parseChars rest with
        | some (cs, left) => some (c :: cs, left)
        | none => none := by
  rw [parseChars.eq_def]

theorem unicodeUnescape_unicodeEscape : ∀ n, n < 32 →
    unicodeUnescape (hexDigit (n / 4096 % 16)) (hexDigit (n / 256 % 16))
      (hexDigit (n / 16 % 16)) (hexDigit (n % 16)) = some (Char.ofNat n) := by
  decide

theorem parseChars_quoteChar (c : Char) (rest : List Char) :
    parseChars (quoteChar c ++ rest) =
      (parseChars rest).map fun r => (c :: r.1, r.2) := by
  unfold quoteChar
  split_ifs with h1 h2 h3 h4 h5 h6 h7 h8
  · subst h1; cases h : parseChars rest <;> simp [parseChars_cons, shortEscape, h]
  · subst h2; cases h : parseChars rest <;> simp [parseChars_cons, shortEscape, h]
  · subst h3; cases h : parseChars rest <;> simp [parseChars_cons, shortEscape, h]
  · subst h4; cases h : parseChars rest <;> simp [parseChars_cons, shortEscape, h]
  · subst h5; cases h : parseChars rest <;> simp [parseChars_cons, shortEscape, h]
  · subst h6; cases h : parseChars rest <;> simp [parseChars_cons, shortEscape, h]
  · subst h7; cases h : parseChars rest <;> simp [parseChars_cons, shortEscape, h]
  · have hu := unicodeUnescape_unicodeEscape c.toNat h8
    have hc : Char.ofNat c.toNat = c := by simp
    rw [hc] at hu
    cases h : parseChars rest <;> simp [unicodeEscape, parseChars_cons, hu, h]
  · cases h : parseChars rest <;> simp [parseChars_cons, h1, h2, h3, h4, h5, h6, h7, h8, h]

theorem parseChars_quoteChars (cs rest : List Char) :
    parseChars (quoteChars cs ++ '"' :: rest) = some (cs, rest) := by
  induction cs with
  | nil => simp [quoteChars, parseChars_cons]
  | cons c cs ih =>
    simp [quoteChars, List.append_assoc, parseChars_quoteChar, ih]

theorem parseString_quoteJSONString (s : String) (rest : List Char) :
    parseString ((quoteJSONString s).data ++ rest) = some (s, rest) := by
  simp [quoteJSONString, parseString, parseChars_quoteChars]

theorem readMember_stringify (key value : String) :
    readMember key (Json.stringify (Json.obj [(key, Json.str value)])) = some value := by
  have h1 := parseString_quoteJSONString key
    (':' :: ((quoteJSONString value).data ++ ['\x7d']))
  have h2 := parseString_quoteJSONString value ['\x7d']
  simp only [readMember, Json.stringify, Json.stringifyMembers, String.data_append]
  have hl : ("\x7b" : String).data = ['\x7b'] := rfl
  have hc : (":" : String).data = [':'] := rfl
  have hr : ("\x7d" : String).data = ['\x7d'] := rfl
  simp only [hl, hc, hr, List.singleton_append, List.append_assoc, List.cons_append,
    List.nil_append] at h1 h2 ⊢
  simp [h1, h2]

/-! ## Lemmas on the routes -/

theorem destructure_ne_null (v : Json) (hv : v ≠ Json.null) (key : String) :
    ∃ x, destructure v key = .ok x := by
  cases v <;> first | exact absurd rfl hv | exact ⟨_, rfl⟩

theorem fetch_api (p : Platform) (request : Request) (env : Env) (log : List Event)
    (hm : request.method ≠ "OPTIONS") (hapi : startsWith request.pathname "/api/" = true) :
    fetch p request env log =
      match apiRoutes p request env log with
      | (.ok r, log1) => (.ok r, log1)
      | (.error e, log1) => (.ok (apiError e), log1) := by
  simp only [fetch, hm, hapi, if_false, if_true, Eff.tryCatch, pure, Eff.pure]
  cases apiRoutes p request env log with
  | mk a log1 => cases a <;> rfl

theorem startsWith_relayPaths (path : String) (h : path ∈ relayPaths) :
    startsWith path "/api/" = true := by
  simp only [relayPaths, List.mem_cons, List.mem_singleton, List.not_mem_nil, or_false] at h
  rcases h with h | h | h <;> subst h <;> decide

theorem newResponse_typed (body : Option String) (status : Option Nat) (value : String)
    (rest : List (String × String)) :
    newResponse body status (("Content-Type", value) :: rest) =
      { body := body, status := status.getD 200, headers := ("Content-Type", value) :: rest } := by
  have h : isContentType "Content-Type" = true := by decide
  cases body <;> simp [newResponse, h]

theorem sheetsCreateRoute_json_error (p : Platform) (request : Request) (log : List Event)
    (e : JsError) (hj : request.json = .error e) :
    sheetsCreateRoute p request log = (.error e, log) := by
  simp [sheetsCreateRoute, bind, Eff.bind, Eff.await, hj]

theorem sheetsCreateRoute_null (p : Platform) (request : Request) (log : List Event)
    (hj : request.json = .ok Json.null) :
    sheetsCreateRoute p request log =
      (.error ⟨"Cannot destructure property 'title' of '(intermediate value)' as it is null."⟩,
        log) := by
  simp only [sheetsCreateRoute, bind, Eff.bind, Eff.await, hj, destructure]
  rfl

theorem sheetsCreateRoute_parsed (p : Platform) (request : Request) (log : List Event)
    (v : Json) (title headers : Option Json) (hj : request.json = .ok v)
    (ht : destructure v "title" = .ok title) (hh : destructure v "headers" = .ok headers) :
    sheetsCreateRoute p request log =
      (relayOutcome p (sheetsCreateCall request title headers),
        log ++ [Event.upstream (sheetsCreateCall request title headers)]) := by
  cases hf : p.fetch (sheetsCreateCall request title headers) with
  | error e =>
    simp [sheetsCreateRoute, bind, Eff.bind, Eff.await, Eff.fetch, hj, ht, hh, relayOutcome, hf]
  | ok up =>
    cases hx : up.text <;>
      simp [sheetsCreateRoute, bind, Eff.bind, Eff.await, Eff.fetch, hj, ht, hh, relayOutcome,
        hf, hx, pure, Eff.pure]

theorem sheetsUpdateRoute_json_error (p : Platform) (request : Request) (log : List Event)
    (e : JsError) (hj : request.json = .error e) :
    sheetsUpdateRoute p request log = (.error e, log) := by
  simp [sheetsUpdateRoute, bind, Eff.bind, Eff.await, hj]

theorem sheetsUpdateRoute_null (p : Platform) (request : Request) (log : List Event)
    (hj : request.json = .ok Json.null) :
    sheetsUpdateRoute p request log =
      (.error
        ⟨"Cannot destructure property 'spreadsheetId' of '(intermediate value)' as it is null."⟩,
        log) := by
  simp only [sheetsUpdateRoute, bind, Eff.bind, Eff.await, hj, destructure]
  rfl

theorem sheetsUpdateRoute_first_throws (p : Platform) (request : Request) (log : List Event)
    (v : Json) (spreadsheetId range values : Option Json) (e : JsError)
    (hj : request.json = .ok v)
    (hs : destructure v "spreadsheetId" = .ok spreadsheetId)
    (hr : destructure v "range" = .ok range) (hvs : destructure v "values" = .ok values)
    (hfirst : toStr spreadsheetId = .error e) :
    sheetsUpdateRoute p request log = (.error e, log) := by
  simp [sheetsUpdateRoute, bind, Eff.bind, Eff.await, hj, hs, hr, hvs, hfirst]

theorem sheetsUpdateRoute_second_throws (p : Platform) (request : Request) (log : List Event)
    (v : Json) (spreadsheetId range values : Option Json) (first : String) (e : JsError)
    (hj : request.json = .ok v)
    (hs : destructure v "spreadsheetId" = .ok spreadsheetId)
    (hr : destructure v "range" = .ok range) (hvs : destructure v "values" = .ok values)
    (hfirst : toStr spreadsheetId = .ok first) (hsecond : toStr range = .error e) :
    sheetsUpdateRoute p request log = (.error e, log) := by
  simp [sheetsUpdateRoute, bind, Eff.bind, Eff.await, hj, hs, hr, hvs, hfirst, hsecond]

theorem sheetsUpdateRoute_parsed (p : Platform) (request : Request) (log : List Event)
    (v : Json) (spreadsheetId range values : Option Json) (first second : String)
    (hj : request.json = .ok v)
    (hs : destructure v "spreadsheetId" = .ok spreadsheetId)
    (hr : destructure v "range" = .ok range) (hvs : destructure v "values" = .ok values)
    (hfirst : toStr spreadsheetId = .ok first) (hsecond : toStr range = .ok second) :
    sheetsUpdateRoute p request log =
      (relayOutcome p (sheetsUpdateCall request first second values),
        log ++ [Event.upstream (sheetsUpdateCall request first second values)]) := by
  cases hf : p.fetch (sheetsUpdateCall request first second values) with
  | error e =>
    simp [sheetsUpdateRoute, bind, Eff.bind, Eff.await, Eff.fetch, hj, hs, hr, hvs, hfirst,
      hsecond, relayOutcome, hf]
  | ok up =>
    cases hx : up.text <;>
      simp [sheetsUpdateRoute, bind, Eff.bind, Eff.await, Eff.fetch, hj, hs, hr, hvs, hfirst,
        hsecond, relayOutcome, hf, hx, pure, Eff.pure]

theorem languageAnalyzeRoute_json_error (p : Platform) (request : Request)
    (log : List Event) (e : JsError) (hj : request.json = .error e) :
    languageAnalyzeRoute p request log = (.error e, log) := by
  simp [languageAnalyzeRoute, bind, Eff.bind, Eff.await, hj]

theorem languageAnalyzeRoute_null (p : Platform) (request : Request) (log : List Event)
    (hj : request.json = .ok Json.null) :
    languageAnalyzeRoute p request log =
      (.error
        ⟨"Cannot destructure property 'content' of '(intermediate value)' as it is null."⟩,
        log) := by
  simp only [languageAnalyzeRoute, bind, Eff.bind, Eff.await, hj, destructure]
  rfl

theorem languageAnalyzeRoute_parsed (p : Platform) (request : Request) (log : List Event)
    (v : Json) (content : Option Json) (hj : request.json = .ok v)
    (hc : destructure v "content" = .ok content) :
    languageAnalyzeRoute p request log =
      (relayOutcome p (languageAnalyzeCall request content),
        log ++ [Event.upstream (languageAnalyzeCall request content)]) := by
  cases hf : p.fetch (languageAnalyzeCall request content) with
  | error e =>
    simp [languageAnalyzeRoute, bind, Eff.bind, Eff.await, Eff.fetch, hj, hc, relayOutcome, hf]
  | ok up =>
    cases hx : up.text <;>
      simp [languageAnalyzeRoute, bind, Eff.bind, Eff.await, Eff.fetch, hj, hc, relayOutcome,
        hf, hx, pure, Eff.pure]

theorem apiRoutes_relay_uniform (p : Platform) (request : Request) (env : Env)
    (log : List Event) (hm : request.method = "POST")
    (hpath : request.pathname ∈ relayPaths) :
    (∃ e, ∀ a : Option String,
      apiRoutes p { request with authorization := a } env log = (.error e, log)) ∨
    (∃ url method body, ∀ a : Option String,
      apiRoutes p { request with authorization := a } env log =
        (relayOutcome p (relayCall url method a body),
          log ++ [Event.upstream (relayCall url method a body)])) := by
  simp only [relayPaths, List.mem_cons, List.mem_singleton, List.not_mem_nil, or_false] at hpath
  have hjson : (∃ e, request.json = .error e) ∨ (∃ v, request.json = .ok v) := by
    cases request.json with
    | error e => exact Or.inl ⟨e, rfl⟩
    | ok v => exact Or.inr ⟨v, rfl⟩
  rcases hpath with h | h | h
  · have hroute : ∀ a : Option String,
        apiRoutes p { request with authorization := a } env log =
          sheetsCreateRoute p { request with authorization := a } log := by
      intro a
      simp [apiRoutes, h, hm]
    rcases hjson with ⟨e, hj⟩ | ⟨v, hj⟩
    · exact Or.inl ⟨e, fun a => by
        rw [hroute a]
        exact sheetsCreateRoute_json_error p { request with authorization := a } log e hj⟩
    · by_cases hv : v = Json.null
      · subst hv
        exact Or.inl ⟨_, fun a => by
          rw [hroute a]
          exact sheetsCreateRoute_null p { request with authorization := a } log hj⟩
      · obtain ⟨title, ht⟩ := destructure_ne_null v hv "title"
        obtain ⟨headers, hh⟩ := destructure_ne_null v hv "headers"
        refine Or.inr ⟨(sheetsCreateCall request title headers).url,
          (sheetsCreateCall request title headers).method,
          (sheetsCreateCall request title headers).body, fun a => ?_⟩
        rw [hroute a]
        exact sheetsCreateRoute_parsed p { request with authorization := a } log v
          title headers hj ht hh
  · have hroute : ∀ a : Option String,
        apiRoutes p { request with authorization := a } env log =
          sheetsUpdateRoute p { request with authorization := a } log := by
      intro a
      simp [apiRoutes, h, hm]
    rcases hjson with ⟨e, hj⟩ | ⟨v, hj⟩
    · exact Or.inl ⟨e, fun a => by
        rw [hroute a]
        exact sheetsUpdateRoute_json_error p { request with authorization := a } log e hj⟩
    · by_cases hv : v = Json.null
      · subst hv
        exact Or.inl ⟨_, fun a => by
          rw [hroute a]
          exact sheetsUpdateRoute_null p { request with authorization := a } log hj⟩
      · obtain ⟨spreadsheetId, hs⟩ := destructure_ne_null v hv "spreadsheetId"
        obtain ⟨range, hr⟩ := destructure_ne_null v hv "range"
        obtain ⟨values, hvs⟩ := destructure_ne_null v hv "values"
        cases hfirst : toStr spreadsheetId with
        | error e =>
          exact Or.inl ⟨e, fun a => by
            rw [hroute a]
            exact sheetsUpdateRoute_first_throws p { request with authorization := a } log v
              spreadsheetId range values e hj hs hr hvs hfirst⟩
        | ok first =>
          cases hsecond : toStr range with
          | error e =>
            exact Or.inl ⟨e, fun a => by
              rw [hroute a]
              exact sheetsUpdateRoute_second_throws p { request with authorization := a } log v
                spreadsheetId range values first e hj hs hr hvs hfirst hsecond⟩
          | ok second =>
            refine Or.inr ⟨(sheetsUpdateCall request first second values).url,
              (sheetsUpdateCall request first second values).method,
              (sheetsUpdateCall request first second values).body, fun a => ?_⟩
            rw [hroute a]
            exact sheetsUpdateRoute_parsed p { request with authorization := a } log v
              spreadsheetId range values first second hj hs hr hvs hfirst hsecond
  · have hroute : ∀ a : Option String,
        apiRoutes p { request with authorization := a } env log =
          languageAnalyzeRoute p { request with authorization := a } log := by
      intro a
      simp [apiRoutes, h, hm]
    rcases hjson with ⟨e, hj⟩ | ⟨v, hj⟩
    · exact Or.inl ⟨e, fun a => by
        rw [hroute a]
        exact languageAnalyzeRoute_json_error p { request with authorization := a } log e hj⟩
    · by_cases hv : v = Json.null
      · subst hv
        exact Or.inl ⟨_, fun a => by
          rw [hroute a]
          exact languageAnalyzeRoute_null p { request with authorization := a } log hj⟩
      · obtain ⟨content, hc⟩ := destructure_ne_null v hv "content"
        refine Or.inr ⟨(languageAnalyzeCall request content).url,
          (languageAnalyzeCall request content).method,
          (languageAnalyzeCall request content).body, fun a => ?_⟩
        rw [hroute a]
        exact languageAnalyzeRoute_parsed p { request with authorization := a } log v
          content hj hc

theorem apiRoutes_relay_cases (p : Platform) (request : Request) (env : Env)
    (log : List Event) (hm : request.method = "POST")
    (hpath : request.pathname ∈ relayPaths) :
    (∃ e, apiRoutes p request env log = (.error e, log)) ∨
    (∃ call, call.headers = relayCallHeaders request ∧
      apiRoutes p request env log = (relayOutcome p call, log ++ [Event.upstream call])) := by
  rcases apiRoutes_relay_uniform p request env log hm hpath with ⟨e, h⟩ | ⟨url, method, body, h⟩
  · exact Or.inl ⟨e, h request.authorization⟩
  · exact Or.inr ⟨relayCall url method request.authorization body, rfl,
      h request.authorization⟩

theorem apiRoutes_relay_called (p : Platform) (request : Request) (env : Env)
    (log : List Event) (hm : request.method = "POST")
    (hpath : request.pathname ∈ relayPaths)
    (v : Json) (hj : request.json = .ok v) (hv : v ≠ Json.null)
    (hconv : request.pathname = "/api/sheets/update" →
      ∀ x, (destructure v "spreadsheetId" = .ok x ∨ destructure v "range" = .ok x) →
        ∃ text, toStr x = .ok text) :
    ∃ call, apiRoutes p request env log =
      (relayOutcome p call, log ++ [Event.upstream call]) := by
  simp only [relayPaths, List.mem_cons, List.mem_singleton, List.not_mem_nil, or_false] at hpath
  rcases hpath with h | h | h
  · obtain ⟨title, ht⟩ := destructure_ne_null v hv "title"
    obtain ⟨headers, hh⟩ := destructure_ne_null v hv "headers"
    refine ⟨sheetsCreateCall request title headers, ?_⟩
    have hroute : apiRoutes p request env log = sheetsCreateRoute p request log := by
      simp [apiRoutes, h, hm]
    rw [hroute]
    exact sheetsCreateRoute_parsed p request log v title headers hj ht hh
  · obtain ⟨spreadsheetId, hs⟩ := destructure_ne_null v hv "spreadsheetId"
    obtain ⟨range, hr⟩ := destructure_ne_null v hv "range"
    obtain ⟨values, hvs⟩ := destructure_ne_null v hv "values"
    obtain ⟨first, hfirst⟩ := hconv h spreadsheetId (Or.inl hs)
    obtain ⟨second, hsecond⟩ := hconv h range (Or.inr hr)
    refine ⟨sheetsUpdateCall request first second values, ?_⟩
    have hroute : apiRoutes p request env log = sheetsUpdateRoute p request log := by
      simp [apiRoutes, h, hm]
    rw [hroute]
    exact sheetsUpdateRoute_parsed p request log v spreadsheetId range values first second
      hj hs hr hvs hfirst hsecond
  · obtain ⟨content, hc⟩ := destructure_ne_null v hv "content"
    refine ⟨languageAnalyzeCall request content, ?_⟩
    have hroute : apiRoutes p request env log = languageAnalyzeRoute p request log := by
      simp [apiRoutes, h, hm]
    rw [hroute]
    exact languageAnalyzeRoute_parsed p request log v content hj hc

end Worker

namespace Worker

theorem relayOutcome_ok (p : Platform) (call : Outbound) (r : Response)
    (h : relayOutcome p call = .ok r) : r.status = 200 ∧ r.headers = relayHeaders := by
  unfold relayOutcome at h
  cases hf : p.fetch call with
  | error e => simp [hf] at h
  | ok up =>
    cases hx : up.text with
    | error e => simp [hf, hx] at h
    | ok b =>
      simp only [hf, hx, Except.ok.injEq] at h
      subst h
      rw [relayHeaders, newResponse_typed]
      exact ⟨rfl, rfl⟩

theorem relayOutcome_answered (p : Platform) (call : Outbound) (s : Nat) (b : String)
    (h : p.fetch call = .ok { status := s, text := .ok b }) :
    relayOutcome p call = .ok { body := some b, status := 200, headers := relayHeaders } := by
  simp only [relayOutcome, h, relayHeaders, newResponse_typed]
  rfl

theorem proxyRoute_success (p : Platform) (request : Request) (log : List Event)
    (v : Json) (u : Option Json) (url : String) (up : Upstream) (t : String)
    (hj : request.json = .ok v) (hd : destructure v "url" = .ok u)
    (hurl : toStr u = .ok url)
    (hf : p.fetch (proxyCall url) = .ok up) (ht : up.text = .ok t) :
    proxyRoute p request log =
      (.ok (proxyContent t), log ++ [Event.upstream (proxyCall url)]) := by
  simp [proxyRoute, Eff.tryCatch, bind, Eff.bind, Eff.await, Eff.fetch, pure, Eff.pure,
    hj, hd, hurl, hf, ht, proxyContent, objectLiteral]

theorem proxyRoute_failure (p : Platform) (request : Request) (log : List Event)
    (e : JsError) (h : proxyFailure p request = some e) :
    (proxyRoute p request log).1 = .ok (proxyError e) := by
  unfold proxyFailure at h
  cases hj : request.json with
  | error e1 =>
    simp only [hj, Option.some.injEq] at h
    subst h
    simp [proxyRoute, Eff.tryCatch, bind, Eff.bind, Eff.await, pure, Eff.pure, hj, proxyError,
      objectLiteral]
  | ok v =>
    cases hd : destructure v "url" with
    | error e1 =>
      simp only [hj, hd, Option.some.injEq] at h
      subst h
      simp [proxyRoute, Eff.tryCatch, bind, Eff.bind, Eff.await, pure, Eff.pure, hj, hd,
        proxyError, objectLiteral]
    | ok u =>
      cases hurl : toStr u with
      | error e1 =>
        simp only [hj, hd, hurl, Option.some.injEq] at h
        subst h
        simp [proxyRoute, Eff.tryCatch, bind, Eff.bind, Eff.await, pure, Eff.pure, hj, hd,
          hurl, proxyError, objectLiteral]
      | ok url =>
        cases hf : p.fetch (proxyCall url) with
        | error e1 =>
          simp only [hj, hd, hurl, hf, Option.some.injEq] at h
          subst h
          simp [proxyRoute, Eff.tryCatch, bind, Eff.bind, Eff.await, Eff.fetch, pure, Eff.pure,
            hj, hd, hurl, hf, proxyError, objectLiteral]
        | ok up =>
          cases ht : up.text with
          | error e1 =>
            simp only [hj, hd, hurl, hf, ht, Option.some.injEq] at h
            subst h
            simp [proxyRoute, Eff.tryCatch, bind, Eff.bind, Eff.await, Eff.fetch, pure,
              Eff.pure, hj, hd, hurl, hf, ht, proxyError, objectLiteral]
          | ok t => simp [hj, hd, hurl, hf, ht] at h

theorem proxyRoute_total (p : Platform) (request : Request) (log : List Event) :
    ∃ r, (proxyRoute p request log).1 = .ok r ∧
      r.header "Access-Control-Allow-Origin" = some "*" := by
  cases hfail : proxyFailure p request with
  | some e =>
    refine ⟨_, proxyRoute_failure p request log e hfail, ?_⟩
    rw [proxyError, newResponse_typed]
    rfl
  | none =>
    unfold proxyFailure at hfail
    cases hj : request.json with
    | error e1 => simp [hj] at hfail
    | ok v =>
      cases hd : destructure v "url" with
      | error e1 => simp [hj, hd] at hfail
      | ok u =>
        cases hurl : toStr u with
        | error e1 => simp [hj, hd, hurl] at hfail
        | ok url =>
          cases hf : p.fetch (proxyCall url) with
          | error e1 => simp [hj, hd, hurl, hf] at hfail
          | ok up =>
            cases ht : up.text with
            | error e1 => simp [hj, hd, hurl, hf, ht] at hfail
            | ok t =>
              refine ⟨proxyContent t, ?_, ?_⟩
              · rw [proxyRoute_success p request log v u url up t hj hd hurl hf ht]
              · rw [proxyContent, newResponse_typed]
                rfl

theorem apiRoutes_ok_header (p : Platform) (request : Request) (env : Env)
    (log : List Event) (r : Response) (h : (apiRoutes p request env log).1 = .ok r) :
    r.header "Access-Control-Allow-Origin" = some "*" := by
  by_cases h1 : request.pathname = "/api/config"
  · simp only [apiRoutes, h1, if_true, configRoute, pure, Eff.pure, Except.ok.injEq] at h
    subst h
    rw [newResponse_typed]
    rfl
  by_cases h2 : request.pathname = "/api/proxy" ∧ request.method = "POST"
  · obtain ⟨r1, hr1, hh⟩ := proxyRoute_total p request log
    have hroute : apiRoutes p request env log = proxyRoute p request log := by
      simp [apiRoutes, h2]
    rw [hroute, hr1] at h
    simp only [Except.ok.injEq] at h
    subst h
    exact hh
  by_cases h3 : request.method = "POST" ∧ request.pathname ∈ relayPaths
  · rcases apiRoutes_relay_cases p request env log h3.1 h3.2 with ⟨e, he⟩ | ⟨call, _, hc⟩
    · simp [he] at h
    · rw [hc] at h
      have := (relayOutcome_ok p call r h).2
      simp [Response.header, this, relayHeaders]
  · have h4 : ∀ path ∈ relayPaths, ¬ (request.pathname = path ∧ request.method = "POST") := by
      intro path hp hc
      exact h3 ⟨hc.2, hc.1 ▸ hp⟩
    have h5 := h4 "/api/sheets/create" (by simp [relayPaths])
    have h6 := h4 "/api/sheets/update" (by simp [relayPaths])
    have h7 := h4 "/api/language/analyze" (by simp [relayPaths])
    simp only [apiRoutes, h1, h2, h5, h6, h7, if_false, pure, Eff.pure, Except.ok.injEq] at h
    subst h
    decide

theorem fetch_static (p : Platform) (request : Request) (env : Env) (log : List Event)
    (hm : request.method ≠ "OPTIONS") (hapi : startsWith request.pathname "/api/" = false) :
    fetch p request env log =
      (match env.ASSETS request with
        | .ok r => .ok r
        | .error _ => .ok (newResponse (some "Not Found") (some 404) []),
       log ++ [Event.assets]) := by
  unfold fetch
  simp only [hm, hapi, if_false, Bool.false_eq_true, Eff.tryCatch, Eff.assets]
  cases env.ASSETS request <;> simp [pure, Eff.pure]

theorem fetch_total (p : Platform) (request : Request) (env : Env) (log : List Event) :
    ∃ r, (fetch p request env log).1 = .ok r := by
  by_cases hm : request.method = "OPTIONS"
  · exact ⟨preflightResponse, by simp [fetch, hm, pure, Eff.pure]⟩
  by_cases hapi : startsWith request.pathname "/api/" = true
  · rw [fetch_api p request env log hm hapi]
    cases apiRoutes p request env log with
    | mk a log1 => cases a <;> exact ⟨_, rfl⟩
  · rw [fetch_static p request env log hm (by simpa using hapi)]
    cases env.ASSETS request <;> exact ⟨_, rfl⟩

end Worker

namespace Worker

/-! ## The claims on the worker -/

/-- C1, at a concrete input: the create relay answers with status 200 and the
upstream text when the upstream service answers 401, so the upstream status
is not the status returned to the caller. -/
theorem relay_status_not_relayed :
    (unauthorizedPlatform.fetch
      (sheetsCreateCall
        (sampleRequest "POST" "/api/sheets/create"
          (.ok (Json.obj [("title", Json.str "Guests")])))
        (some (Json.str "Guests")) none)).toOption.map Upstream.status = some 401 ∧
    (fetch unauthorizedPlatform
      (sampleRequest "POST" "/api/sheets/create" (.ok (Json.obj [("title", Json.str "Guests")])))
      emptyEnv []).2 =
      [Event.upstream (sheetsCreateCall
        (sampleRequest "POST" "/api/sheets/create"
          (.ok (Json.obj [("title", Json.str "Guests")])))
        (some (Json.str "Guests")) none)] ∧
    statusOf (fetch unauthorizedPlatform
      (sampleRequest "POST" "/api/sheets/create" (.ok (Json.obj [("title", Json.str "Guests")])))
      emptyEnv []) = some 200 ∧
    bodyOf (fetch unauthorizedPlatform
      (sampleRequest "POST" "/api/sheets/create" (.ok (Json.obj [("title", Json.str "Guests")])))
      emptyEnv []) = some "denied" :=
  ⟨rfl, by decide, by decide, by decide⟩

/-- C1, amended: on each of the three relay routes, whenever the worker makes
its upstream call and the upstream service answers that call with status `s`
and text `b`, the response to the caller has body `b`, the relay headers and
status 200, whatever `s` is, and that call is the only one made. -/
theorem relay_returns_body_with_status_200 (p : Platform) (request : Request) (env : Env)
    (call : Outbound) (s : Nat) (b : String)
    (hm : request.method = "POST") (hpath : request.pathname ∈ relayPaths)
    (hcall : Event.upstream call ∈ (fetch p request env []).2)
    (hup : p.fetch call = .ok { status := s, text := .ok b }) :
    fetch p request env [] =
      (.ok { body := some b, status := 200,
             headers :=
               [("Content-Type", "application/json"),
                ("Access-Control-Allow-Origin", "*"),
                ("Access-Control-Allow-Headers", "Content-Type, Authorization, Origin")] },
        [Event.upstream call]) := by
  have hom : request.method ≠ "OPTIONS" := by rw [hm]; decide
  have hfetch := fetch_api p request env [] hom (startsWith_relayPaths _ hpath)
  rcases apiRoutes_relay_cases p request env [] hm hpath with ⟨e, he⟩ | ⟨c, _, hc⟩
  · rw [hfetch, he] at hcall
    simp at hcall
  · rw [hc] at hfetch
    have hlog : (fetch p request env []).2 = [Event.upstream c] := by
      rw [hfetch]; cases relayOutcome p c <;> rfl
    rw [hlog] at hcall
    simp only [List.mem_singleton, Event.upstream.injEq] at hcall
    subst hcall
    rw [hfetch, relayOutcome_answered p call s b hup]
    rfl

/-- Witness of C1 (amended) on the create route with an upstream answer 401. -/
theorem relay_returns_body_with_status_200_witness :
    fetch unauthorizedPlatform
      (sampleRequest "POST" "/api/sheets/create" (.ok (Json.obj [("title", Json.str "Guests")])))
      emptyEnv [] =
      (.ok { body := some "denied", status := 200,
             headers :=
               [("Content-Type", "application/json"),
                ("Access-Control-Allow-Origin", "*"),
                ("Access-Control-Allow-Headers", "Content-Type, Authorization, Origin")] },
        [Event.upstream
          { url := "https://sheets.googleapis.com/v4/spreadsheets"
            method := "POST"
            headers := [("Authorization", some "Bearer abc"),
                        ("Content-Type", some "application/json")]
            body := some "\x7b\"properties\":\x7b\"title\":\"Guests\"\x7d\x7d" }]) :=
  relay_returns_body_with_status_200 unauthorizedPlatform
    (sampleRequest "POST" "/api/sheets/create" (.ok (Json.obj [("title", Json.str "Guests")])))
    emptyEnv
    { url := "https://sheets.googleapis.com/v4/spreadsheets"
      method := "POST"
      headers := [("Authorization", some "Bearer abc"),
                  ("Content-Type", some "application/json")]
      body := some "\x7b\"properties\":\x7b\"title\":\"Guests\"\x7d\x7d" }
    401 "denied" rfl (by decide) (by decide) rfl

/-- C2, at concrete inputs: a GET of a page the asset store holds is answered
with the response of the store, which has no `Access-Control-Allow-Origin`
header; and a GET of a path the store misses is answered 404 `Not Found`,
again without that header. -/
theorem static_response_has_no_cors_header :
    headerOf (fetch examplePlatform (sampleRequest "GET" "/index.html" (.ok Json.null))
      siteEnv []) "Access-Control-Allow-Origin" = none ∧
    statusOf (fetch examplePlatform (sampleRequest "GET" "/index.html" (.ok Json.null))
      siteEnv []) = some 200 ∧
    headerOf (fetch examplePlatform (sampleRequest "GET" "/missing.html" (.ok Json.null))
      siteEnv []) "Access-Control-Allow-Origin" = none ∧
    statusOf (fetch examplePlatform (sampleRequest "GET" "/missing.html" (.ok Json.null))
      siteEnv []) = some 404 ∧
    bodyOf (fetch examplePlatform (sampleRequest "GET" "/missing.html" (.ok Json.null))
      siteEnv []) = some "Not Found" :=
  ⟨by decide, by decide, by decide, by decide, by decide⟩

/-- C2, amended: every response to an OPTIONS request or to a request whose
path starts with `/api/` carries `Access-Control-Allow-Origin: *`. -/
theorem api_responses_allow_any_origin (p : Platform) (request : Request) (env : Env)
    (log : List Event)
    (h : request.method = "OPTIONS" ∨ startsWith request.pathname "/api/" = true) :
    headerOf (fetch p request env log) "Access-Control-Allow-Origin" = some "*" := by
  by_cases hm : request.method = "OPTIONS"
  · simp [headerOf, fetch, hm, pure, Eff.pure, preflightResponse, newResponse, Response.header]
  · have hapi : startsWith request.pathname "/api/" = true := h.resolve_left hm
    rw [headerOf, fetch_api p request env log hm hapi]
    cases hr : apiRoutes p request env log with
    | mk a log1 =>
      cases a with
      | error e =>
        show (apiError e).header "Access-Control-Allow-Origin" = some "*"
        rw [apiError, newResponse_typed]
        rfl
      | ok r =>
        have := apiRoutes_ok_header p request env log r (by rw [hr])
        simpa using this

/-- Witness of C2 (amended) on an unrecognised API path. -/
theorem api_responses_allow_any_origin_witness :
    headerOf (fetch examplePlatform (sampleRequest "GET" "/api/unknown" (.ok Json.null))
      emptyEnv []) "Access-Control-Allow-Origin" = some "*" :=
  api_responses_allow_any_origin examplePlatform
    (sampleRequest "GET" "/api/unknown" (.ok Json.null)) emptyEnv [] (Or.inr (by decide))

/-- C3: a request that is not OPTIONS, whose path starts with `/api/` and
that matches no route (its path is not `/api/config`, and it is not a POST to
one of the four POST paths) is answered 404 with the body
`API endpoint not found`, and no service is consulted. The headers are the
one the worker sets and the `Content-Type` the constructor gives a text
body. -/
theorem unknown_api_path_is_404 (p : Platform) (request : Request) (env : Env)
    (log : List Event)
    (hm : request.method ≠ "OPTIONS")
    (hapi : startsWith request.pathname "/api/" = true)
    (hconfig : request.pathname ≠ "/api/config")
    (hroute : ¬ (request.method = "POST" ∧ request.pathname ∈
      ["/api/proxy", "/api/sheets/create", "/api/sheets/update", "/api/language/analyze"])) :
    fetch p request env log =
      (.ok { body := some "API endpoint not found", status := 404,
             headers := [("Access-Control-Allow-Origin", "*"),
                         ("Content-Type", "text/plain;charset=UTF-8")] }, log) := by
  simp only [List.mem_cons, List.mem_singleton, List.not_mem_nil, or_false, not_and,
    not_or] at hroute
  have hnf : apiNotFound =
      { body := some "API endpoint not found", status := 404,
        headers := [("Access-Control-Allow-Origin", "*"),
                    ("Content-Type", "text/plain;charset=UTF-8")] } := by
    decide
  unfold fetch apiRoutes
  by_cases hp : request.method = "POST"
  · obtain ⟨h1, h2, h3, h4⟩ := hroute hp
    simp [hm, hapi, hconfig, h1, h2, h3, h4, Eff.tryCatch, pure, Eff.pure, hnf]
  · simp [hm, hapi, hconfig, hp, Eff.tryCatch, pure, Eff.pure, hnf]

/-- Witness of C3: a POST path requested with GET, and a POST path with a
trailing slash. -/
theorem unknown_api_path_is_404_witness :
    fetch examplePlatform (sampleRequest "GET" "/api/proxy" (.ok Json.null)) emptyEnv [] =
      (.ok { body := some "API endpoint not found", status := 404,
             headers := [("Access-Control-Allow-Origin", "*"),
                         ("Content-Type", "text/plain;charset=UTF-8")] }, []) ∧
    fetch examplePlatform (sampleRequest "POST" "/api/sheets/create/" (.ok Json.null))
        emptyEnv [] =
      (.ok { body := some "API endpoint not found", status := 404,
             headers := [("Access-Control-Allow-Origin", "*"),
                         ("Content-Type", "text/plain;charset=UTF-8")] }, []) :=
  ⟨unknown_api_path_is_404 examplePlatform (sampleRequest "GET" "/api/proxy" (.ok Json.null))
      emptyEnv [] (by decide) (by decide) (by decide) (by decide),
   unknown_api_path_is_404 examplePlatform
      (sampleRequest "POST" "/api/sheets/create/" (.ok Json.null))
      emptyEnv [] (by decide) (by decide) (by decide) (by decide)⟩

/-- C4: an OPTIONS request, whatever its path, is answered with status 200, no
body and the four CORS headers, `Access-Control-Max-Age` being 86400, and no
service is consulted. -/
theorem options_is_preflight (p : Platform) (request : Request) (env : Env)
    (log : List Event) (hm : request.method = "OPTIONS") :
    fetch p request env log =
      (.ok { body := none, status := 200,
             headers :=
               [("Access-Control-Allow-Origin", "*"),
                ("Access-Control-Allow-Methods", "GET, POST, OPTIONS"),
                ("Access-Control-Allow-Headers", "Content-Type, Authorization, Origin"),
                ("Access-Control-Max-Age", "86400")] }, log) := by
  simp [fetch, hm, pure, Eff.pure, preflightResponse, newResponse]

/-- Witness of C4 on an unrecognised API path. -/
theorem options_is_preflight_witness :
    statusOf (fetch examplePlatform (sampleRequest "OPTIONS" "/api/unknown" (.ok Json.null))
      emptyEnv []) = some 200 ∧
    bodyOf (fetch examplePlatform (sampleRequest "OPTIONS" "/api/unknown" (.ok Json.null))
      emptyEnv []) = none := by
  have h := options_is_preflight examplePlatform
    (sampleRequest "OPTIONS" "/api/unknown" (.ok Json.null)) emptyEnv [] rfl
  simp [statusOf, bodyOf, h]

end Worker

namespace Worker

/-- C5: a POST to `/api/proxy` whose body is an object with member `url` = the
string `u` makes one outbound call, a GET to the url `u` with the `User-Agent`
of the worker and no body; when that call yields the text `t`, the response
has status 200 and as body the text `JSON.stringify` gives for the object with
the one member `content` = `t`, and decoding that body and reading `content`
gives `t` back. -/
theorem proxy_returns_fetched_text (p : Platform) (request : Request) (env : Env)
    (log : List Event) (members : List (String × Json)) (u : String) (s : Nat) (t : String)
    (hm : request.method = "POST") (hpath : request.pathname = "/api/proxy")
    (hj : request.json = .ok (Json.obj members))
    (hu : lookupMember "url" members = some (Json.str u))
    (hf : p.fetch
        { url := u
          method := "GET"
          headers := [("User-Agent",
            some "Mozilla/5.0 (compatible; GreaterBot/1.0; +https://website)")]
          body := none } = .ok { status := s, text := .ok t }) :
    fetch p request env log =
      (.ok { body := some (Json.stringify (Json.obj [("content", Json.str t)]))
             status := 200
             headers :=
               [("Content-Type", "application/json"),
                ("Access-Control-Allow-Origin", "*"),
                ("Access-Control-Allow-Methods", "POST, OPTIONS"),
                ("Access-Control-Allow-Headers", "Content-Type")] },
        log ++ [Event.upstream
          { url := u
            method := "GET"
            headers := [("User-Agent",
              some "Mozilla/5.0 (compatible; GreaterBot/1.0; +https://website)")]
            body := none }]) ∧
    (bodyOf (fetch p request env log)).bind (readMember "content") = some t := by
  have hom : request.method ≠ "OPTIONS" := by rw [hm]; decide
  have hapi : startsWith request.pathname "/api/" = true := by rw [hpath]; decide
  have hroute : apiRoutes p request env log = proxyRoute p request log := by
    simp [apiRoutes, hpath, hm]
  have hd : destructure (Json.obj members) "url" = .ok (some (Json.str u)) := by
    simp [destructure, hu]
  have hrun := proxyRoute_success p request log (Json.obj members) (some (Json.str u)) u
    { status := s, text := .ok t } t hj hd rfl hf rfl
  have hfetch : fetch p request env log =
      (.ok (proxyContent t), log ++ [Event.upstream (proxyCall u)]) := by
    rw [fetch_api p request env log hom hapi, hroute, hrun]
  have hcontent : proxyContent t =
      { body := some (Json.stringify (Json.obj [("content", Json.str t)]))
        status := 200
        headers :=
          [("Content-Type", "application/json"),
           ("Access-Control-Allow-Origin", "*"),
           ("Access-Control-Allow-Methods", "POST, OPTIONS"),
           ("Access-Control-Allow-Headers", "Content-Type")] } := by
    rw [proxyContent, newResponse_typed]
    rfl
  have hbody : bodyOf (fetch p request env log) =
      some (Json.stringify (Json.obj [("content", Json.str t)])) := by
    rw [hfetch, hcontent]; rfl
  refine ⟨?_, ?_⟩
  · rw [hfetch, hcontent]
    rfl
  · rw [hbody]
    exact readMember_stringify "content" t

/-- Witness of C5: the example of the specification. -/
theorem proxy_returns_fetched_text_witness :
    fetch examplePlatform
      (sampleRequest "POST" "/api/proxy"
        (.ok (Json.obj [("url", Json.str "https://example.com")])))
      emptyEnv [] =
      (.ok { body := some "\x7b\"content\":\"<html>Hi</html>\"\x7d"
             status := 200
             headers :=
               [("Content-Type", "application/json"),
                ("Access-Control-Allow-Origin", "*"),
                ("Access-Control-Allow-Methods", "POST, OPTIONS"),
                ("Access-Control-Allow-Headers", "Content-Type")] },
        [Event.upstream
          { url := "https://example.com"
            method := "GET"
            headers := [("User-Agent",
              some "Mozilla/5.0 (compatible; GreaterBot/1.0; +https://website)")]
            body := none }]) :=
  (proxy_returns_fetched_text examplePlatform
    (sampleRequest "POST" "/api/proxy"
      (.ok (Json.obj [("url", Json.str "https://example.com")])))
    emptyEnv [] [("url", Json.str "https://example.com")] "https://example.com"
    200 "<html>Hi</html>" rfl rfl rfl rfl rfl).1

/-- C6: a POST to `/api/proxy` in which parsing the body, the outbound fetch or
reading the response text fails with the error `e` is answered with status 500
and the JSON body with the members `error` = `Failed to fetch URL` and
`details` = the message of `e`, which is never the body of the router-level
error response. -/
theorem proxy_failure_is_500_with_details (p : Platform) (request : Request) (env : Env)
    (log : List Event) (e : JsError)
    (hm : request.method = "POST") (hpath : request.pathname = "/api/proxy")
    (hfail : proxyFailure p request = some e) :
    statusOf (fetch p request env log) = some 500 ∧
    bodyOf (fetch p request env log) =
      some (Json.stringify (Json.obj
        [("error", Json.str "Failed to fetch URL"), ("details", Json.str e.message)])) ∧
    bodyOf (fetch p request env log) ≠
      some (Json.stringify (Json.obj [("error", Json.str e.message)])) := by
  have hom : request.method ≠ "OPTIONS" := by rw [hm]; decide
  have hapi : startsWith request.pathname "/api/" = true := by rw [hpath]; decide
  have hroute : apiRoutes p request env log = proxyRoute p request log := by
    simp [apiRoutes, hpath, hm]
  have hrun := proxyRoute_failure p request log e hfail
  have hfetch : (fetch p request env log).1 = .ok (proxyError e) := by
    rw [fetch_api p request env log hom hapi, hroute]
    cases hr : proxyRoute p request log with
    | mk a log1 =>
      rw [hr] at hrun
      simp only at hrun
      subst hrun
      rfl
  have hbody : bodyOf (fetch p request env log) =
      some (Json.stringify (Json.obj
        [("error", Json.str "Failed to fetch URL"), ("details", Json.str e.message)])) := by
    rw [bodyOf, hfetch]; rfl
  refine ⟨by rw [statusOf, hfetch]; rfl, hbody, ?_⟩
  rw [hbody]
  intro h
  have hlen := congrArg String.length (Option.some.inj h)
  simp only [Json.stringify, Json.stringifyMembers, String.length_append] at hlen
  have hcomma : (",").length = 1 := by decide
  omega

/-- Witness of C6: a body that is not JSON. -/
theorem proxy_failure_is_500_with_details_witness :
    statusOf (fetch examplePlatform
      (sampleRequest "POST" "/api/proxy" (.error { message := "Unexpected end of JSON input" }))
      emptyEnv []) = some 500 ∧
    bodyOf (fetch examplePlatform
      (sampleRequest "POST" "/api/proxy" (.error { message := "Unexpected end of JSON input" }))
      emptyEnv []) =
      some "\x7b\"error\":\"Failed to fetch URL\",\"details\":\"Unexpected end of JSON input\"\x7d" :=
  have h := proxy_failure_is_500_with_details examplePlatform
    (sampleRequest "POST" "/api/proxy" (.error { message := "Unexpected end of JSON input" }))
    emptyEnv [] { message := "Unexpected end of JSON input" } rfl rfl rfl
  ⟨h.1, h.2.1⟩

/-- C7: when the route chain of a non-OPTIONS request to an `/api/` path throws
the error `e`, the worker answers with status 500 and the JSON body with the one
member `error` = the message of `e`; on the three relay routes an unparsable
body is such a throw, and so is an upstream call that the global `fetch`
rejects; and the handler returns a response for every request, never an
exception. -/
theorem api_failure_is_500 (p : Platform) (request : Request) (env : Env)
    (log : List Event) (e : JsError)
    (hm : request.method ≠ "OPTIONS") (hapi : startsWith request.pathname "/api/" = true)
    (hthrow : (apiRoutes p request env log).1 = .error e) :
    statusOf (fetch p request env log) = some 500 ∧
    bodyOf (fetch p request env log) =
      some (Json.stringify (Json.obj [("error", Json.str e.message)])) ∧
    (∀ (q : Platform) (r : Request) (e1 : JsError),
      r.method = "POST" → r.pathname ∈ relayPaths → r.json = .error e1 →
      (apiRoutes q r env log).1 = .error e1) ∧
    (∀ (q : Platform) (r : Request) (call : Outbound) (e1 : JsError),
      r.method = "POST" → r.pathname ∈ relayPaths →
      Event.upstream call ∈ (apiRoutes q r env []).2 → q.fetch call = .error e1 →
      (apiRoutes q r env []).1 = .error e1) ∧
    (∀ (q : Platform) (r : Request) (env1 : Env) (log1 : List Event),
      ∃ response, (fetch q r env1 log1).1 = .ok response) := by
  have hfetch : (fetch p request env log).1 = .ok (apiError e) := by
    rw [fetch_api p request env log hm hapi]
    cases hr : apiRoutes p request env log with
    | mk a log1 =>
      rw [hr] at hthrow
      simp only at hthrow
      subst hthrow
      rfl
  refine ⟨by rw [statusOf, hfetch]; rfl, by rw [bodyOf, hfetch]; rfl, ?_, ?_, ?_⟩
  · intro q r e1 h1 h2 h3
    simp only [relayPaths, List.mem_cons, List.mem_singleton, List.not_mem_nil,
      or_false] at h2
    rcases h2 with h | h | h
    · have hr : apiRoutes q r env log = sheetsCreateRoute q r log := by
        simp [apiRoutes, h, h1]
      rw [hr, sheetsCreateRoute_json_error q r log e1 h3]
    · have hr : apiRoutes q r env log = sheetsUpdateRoute q r log := by
        simp [apiRoutes, h, h1]
      rw [hr, sheetsUpdateRoute_json_error q r log e1 h3]
    · have hr : apiRoutes q r env log = languageAnalyzeRoute q r log := by
        simp [apiRoutes, h, h1]
      rw [hr, languageAnalyzeRoute_json_error q r log e1 h3]
  · intro q r call e1 h1 h2 h3 h4
    rcases apiRoutes_relay_cases q r env [] h1 h2 with ⟨e2, he⟩ | ⟨c, _, hc⟩
    · rw [he] at h3
      simp at h3
    · rw [hc] at h3 ⊢
      simp only [List.nil_append, List.mem_singleton, Event.upstream.injEq] at h3
      subst h3
      simp [relayOutcome, h4]
  · intro q r env1 log1
    exact fetch_total q r env1 log1

/-- Witness of C7: an unparsable body on the create route; a body of the
update route whose `spreadsheetId` cannot be converted to a string, for which
no upstream call is made; and an upstream call that is rejected. -/
theorem api_failure_is_500_witness :
    (statusOf (fetch examplePlatform
        (sampleRequest "POST" "/api/sheets/create" (.error { message := "Unexpected token" }))
        emptyEnv []) = some 500 ∧
      bodyOf (fetch examplePlatform
        (sampleRequest "POST" "/api/sheets/create" (.error { message := "Unexpected token" }))
        emptyEnv []) = some "\x7b\"error\":\"Unexpected token\"\x7d") ∧
    (statusOf (fetch examplePlatform
        (sampleRequest "POST" "/api/sheets/update"
          (.ok (Json.obj [("spreadsheetId", Json.obj [("toString", Json.str "x")])])))
        emptyEnv []) = some 500 ∧
      bodyOf (fetch examplePlatform
        (sampleRequest "POST" "/api/sheets/update"
          (.ok (Json.obj [("spreadsheetId", Json.obj [("toString", Json.str "x")])])))
        emptyEnv []) =
        some "\x7b\"error\":\"Cannot convert object to primitive value\"\x7d" ∧
      (fetch examplePlatform
        (sampleRequest "POST" "/api/sheets/update"
          (.ok (Json.obj [("spreadsheetId", Json.obj [("toString", Json.str "x")])])))
        emptyEnv []).2 = []) ∧
    (apiRoutes failingPlatform
        (sampleRequest "POST" "/api/language/analyze"
          (.ok (Json.obj [("content", Json.str "Ada Lovelace")])))
        emptyEnv []).1 = .error { message := "Network connection lost" } :=
  have h1 := api_failure_is_500 examplePlatform
    (sampleRequest "POST" "/api/sheets/create" (.error { message := "Unexpected token" }))
    emptyEnv [] { message := "Unexpected token" } (by decide) (by decide) rfl
  have h2 := api_failure_is_500 examplePlatform
    (sampleRequest "POST" "/api/sheets/update"
      (.ok (Json.obj [("spreadsheetId", Json.obj [("toString", Json.str "x")])])))
    emptyEnv [] toPrimitiveError (by decide) (by decide) rfl
  ⟨⟨h1.1, h1.2.1⟩, ⟨h2.1, h2.2.1, by decide⟩,
    h1.2.2.2.1 failingPlatform
      (sampleRequest "POST" "/api/language/analyze"
        (.ok (Json.obj [("content", Json.str "Ada Lovelace")])))
      (languageAnalyzeCall
        (sampleRequest "POST" "/api/language/analyze"
          (.ok (Json.obj [("content", Json.str "Ada Lovelace")])))
        (some (Json.str "Ada Lovelace")))
      { message := "Network connection lost" } rfl (by decide) (by decide) rfl⟩

end Worker

namespace Worker

/-- C8: on each of the three relay routes, every outbound call carries as its
`Authorization` header the value of the incoming request's `Authorization`
header. Whether a call is made, and its url, method and body, are the same
whatever the value of the incoming header, and the `Authorization` header of
the call is that value. Exactly one call is made when the body parses to a
value other than `null` and, on the update route, the two values interpolated
in the url convert to strings. -/
theorem relay_forwards_authorization (p : Platform) (request : Request) (env : Env)
    (hm : request.method = "POST") (hpath : request.pathname ∈ relayPaths) :
    (∀ call, Event.upstream call ∈ (fetch p request env []).2 →
      call.headers.lookup "Authorization" = some request.authorization) ∧
    ((∀ a : Option String, (fetch p { request with authorization := a } env []).2 = []) ∨
      (∃ url method body, ∀ a : Option String,
        (fetch p { request with authorization := a } env []).2 =
          [Event.upstream
            { url := url, method := method,
              headers := [("Authorization", a), ("Content-Type", some "application/json")],
              body := body }])) ∧
    (∀ v, request.json = .ok v → v ≠ Json.null →
      (request.pathname = "/api/sheets/update" →
        ∀ x, (destructure v "spreadsheetId" = .ok x ∨ destructure v "range" = .ok x) →
          ∃ text, toStr x = .ok text) →
      ∃ call, (fetch p request env []).2 = [Event.upstream call]) := by
  have hom : request.method ≠ "OPTIONS" := by rw [hm]; decide
  have hapi := startsWith_relayPaths _ hpath
  refine ⟨?_, ?_, ?_⟩
  · intro call hcall
    rw [fetch_api p request env [] hom hapi] at hcall
    rcases apiRoutes_relay_cases p request env [] hm hpath with ⟨e, he⟩ | ⟨c, hc, he⟩
    · rw [he] at hcall
      simp at hcall
    · rw [he] at hcall
      have hmem : Event.upstream call ∈ [Event.upstream c] := by
        cases hr : relayOutcome p c <;> rw [hr] at hcall <;> simpa using hcall
      simp only [List.mem_singleton, Event.upstream.injEq] at hmem
      subst hmem
      rw [hc]
      rfl
  · rcases apiRoutes_relay_uniform p request env [] hm hpath with
      ⟨e, h⟩ | ⟨url, method, body, h⟩
    · refine Or.inl fun a => ?_
      rw [fetch_api p { request with authorization := a } env [] hom hapi, h a]
    · refine Or.inr ⟨url, method, body, fun a => ?_⟩
      rw [fetch_api p { request with authorization := a } env [] hom hapi, h a]
      cases relayOutcome p (relayCall url method a body) <;> rfl
  · intro v hj hv hconv
    obtain ⟨call, hc⟩ := apiRoutes_relay_called p request env [] hm hpath v hj hv hconv
    refine ⟨call, ?_⟩
    rw [fetch_api p request env [] hom hapi, hc]
    cases relayOutcome p call <;> rfl

/-- Witness of C8 on the update route. -/
theorem relay_forwards_authorization_witness :
    Event.upstream (sheetsUpdateCall
        (sampleRequest "POST" "/api/sheets/update"
          (.ok (Json.obj [("spreadsheetId", Json.str "abc"), ("range", Json.str "A1:B1")])))
        "abc" "A1:B1" none) ∈
      (fetch examplePlatform
        (sampleRequest "POST" "/api/sheets/update"
          (.ok (Json.obj [("spreadsheetId", Json.str "abc"), ("range", Json.str "A1:B1")])))
        emptyEnv []).2 ∧
    (sheetsUpdateCall
        (sampleRequest "POST" "/api/sheets/update"
          (.ok (Json.obj [("spreadsheetId", Json.str "abc"), ("range", Json.str "A1:B1")])))
        "abc" "A1:B1" none).headers.lookup "Authorization" =
      some (some "Bearer abc") :=
  ⟨by decide,
   (relay_forwards_authorization examplePlatform
    (sampleRequest "POST" "/api/sheets/update"
      (.ok (Json.obj [("spreadsheetId", Json.str "abc"), ("range", Json.str "A1:B1")])))
    emptyEnv rfl (by decide)).1 _ (by decide)⟩

/-- C9: a request that is not OPTIONS and whose path does not start with
`/api/` is handed to the asset store; the response of the store is returned
unchanged, and when the store fails the lookup the response is 404 with the
body `Not Found` and the `Content-Type` the constructor gives a text body.
The path `/api` is such a path. -/
theorem static_path_is_served_by_assets (p : Platform) (request : Request) (env : Env)
    (log : List Event)
    (hm : request.method ≠ "OPTIONS")
    (hapi : startsWith request.pathname "/api/" = false) :
    (∀ r, env.ASSETS request = .ok r →
      fetch p request env log = (.ok r, log ++ [Event.assets])) ∧
    (∀ e, env.ASSETS request = .error e →
      fetch p request env log =
        (.ok { body := some "Not Found", status := 404,
               headers := [("Content-Type", "text/plain;charset=UTF-8")] },
          log ++ [Event.assets])) ∧
    startsWith "/api" "/api/" = false := by
  have h := fetch_static p request env log hm hapi
  refine ⟨?_, ?_, by decide⟩
  · intro r hr
    rw [h, hr]
  · intro e he
    rw [h, he]
    rfl

/-- Witness of C9: the path `/api` on a store that misses it, and a page the
store holds. -/
theorem static_path_is_served_by_assets_witness :
    fetch examplePlatform (sampleRequest "GET" "/api" (.ok Json.null)) siteEnv [] =
      (.ok { body := some "Not Found", status := 404,
             headers := [("Content-Type", "text/plain;charset=UTF-8")] },
        [Event.assets]) ∧
    fetch examplePlatform (sampleRequest "GET" "/index.html" (.ok Json.null)) siteEnv [] =
      (.ok { body := some "<h1>Guests</h1>", status := 200,
             headers := [("Content-Type", "text/html")] }, [Event.assets]) :=
  ⟨(static_path_is_served_by_assets examplePlatform
      (sampleRequest "GET" "/api" (.ok Json.null)) siteEnv [] (by decide) (by decide)).2.1
      { message := "no such asset" } rfl,
   (static_path_is_served_by_assets examplePlatform
      (sampleRequest "GET" "/index.html" (.ok Json.null)) siteEnv [] (by decide) (by decide)).1
      _ rfl⟩

end Worker


/-! ## The claims on the readiness managers -/

/-- C10, at the failing input: when `initialize()` is called on a fresh manager
while the Google API client is not available, the promise it creates is
rejected and is then stored in `initPromise`; `isInitialized()` is true, and a
later `initialize()`, made when the client is available, returns that rejected
promise and loads nothing. Both managers behave so. After a rejected load, in
contrast, `initPromise` is `null`. -/
theorem init_without_client_keeps_rejected_promise :
    ((SheetsAPIManager.init false Manager.new).1.initPromise = some 0 ∧
      (SheetsAPIManager.init false Manager.new).1.promises =
        [PromiseState.rejected
          { message := "Failed to initialize Sheets API: Google API client not available" }] ∧
      SheetsAPIManager.isInitialized (SheetsAPIManager.init false Manager.new).1 = true ∧
      SheetsAPIManager.init true (SheetsAPIManager.init false Manager.new).1 =
        ((SheetsAPIManager.init false Manager.new).1, 0) ∧
      (SheetsAPIManager.init false Manager.new).1.loads = []) ∧
    ((LanguageAPIManager.init false Manager.new).1.initPromise = some 0 ∧
      (LanguageAPIManager.init false Manager.new).1.promises =
        [PromiseState.rejected
          { message := "Failed to initialize Language API: Google API client not available" }] ∧
      LanguageAPIManager.isInitialized (LanguageAPIManager.init false Manager.new).1
        = true ∧
      LanguageAPIManager.init true (LanguageAPIManager.init false Manager.new).1 =
        ((LanguageAPIManager.init false Manager.new).1, 0) ∧
      (LanguageAPIManager.init false Manager.new).1.loads = []) ∧
    (∀ error : Worker.JsError,
      (SheetsAPIManager.resume 0 (.error error)
        (SheetsAPIManager.init true Manager.new).1).initPromise = none ∧
      SheetsAPIManager.isInitialized (SheetsAPIManager.resume 0 (.error error)
        (SheetsAPIManager.init true Manager.new).1) = false ∧
      (LanguageAPIManager.resume 0 (.error error)
        (LanguageAPIManager.init true Manager.new).1).initPromise = none ∧
      LanguageAPIManager.isInitialized (LanguageAPIManager.resume 0 (.error error)
        (LanguageAPIManager.init true Manager.new).1) = false) := by
  refine ⟨by decide, by decide, fun error => ?_⟩
  refine ⟨rfl, rfl, rfl, rfl⟩

/-! ## More claims on the readiness managers -/

theorem SheetsAPIManager.sheets_init_of_initPromise (g : Bool) (m : Manager) (ref : Nat)
    (h : m.initPromise = some ref) : SheetsAPIManager.init g m = (m, ref) := by
  simp [SheetsAPIManager.init, h]

theorem LanguageAPIManager.language_init_of_initPromise (g : Bool) (m : Manager) (ref : Nat)
    (h : m.initPromise = some ref) : LanguageAPIManager.init g m = (m, ref) := by
  simp [LanguageAPIManager.init, h]

/-- C11, at a concrete input: while the first `initialize()` of a manager is
still in flight (its promise is pending), `canMakeApiCalls()` returns
`allowed = true` with no reason, for both managers, when the client holds a
token. -/
theorem canMakeApiCalls_allowed_while_pending :
    (SheetsAPIManager.init true Manager.new).1.promises = [PromiseState.pending] ∧
    SheetsAPIManager.canMakeApiCalls (Gapi.client (some { expires_at := none })) 1000
      (SheetsAPIManager.init true Manager.new).1 = .ok { allowed := true, reason := none } ∧
    (LanguageAPIManager.init true Manager.new).1.promises = [PromiseState.pending] ∧
    LanguageAPIManager.canMakeApiCalls (Gapi.client (some { expires_at := none }))
      (LanguageAPIManager.init true Manager.new).1 = .ok { allowed := true, reason := none } :=
  ⟨by decide, rfl, by decide, rfl⟩

/-- C11, amended: for both managers, `canMakeApiCalls()` returns
`allowed = true` only if `initPromise` is set; when `initPromise` is `null`
(no `initialize()` yet, or the attempt was reset by a rejected load) it
returns `allowed = false` with the not-initialized reason. -/
theorem canMakeApiCalls_needs_initPromise (gapi : Gapi) (currentTime : Nat) (m : Manager) :
    (m.initPromise = none →
      SheetsAPIManager.canMakeApiCalls gapi currentTime m =
        .ok { allowed := false, reason := some "API not initialized" } ∧
      LanguageAPIManager.canMakeApiCalls gapi m =
        .ok { allowed := false, reason := some "Language API not initialized" }) ∧
    (∀ status, SheetsAPIManager.canMakeApiCalls gapi currentTime m = .ok status →
      status.allowed = true → m.initPromise ≠ none) ∧
    (∀ status, LanguageAPIManager.canMakeApiCalls gapi m = .ok status →
      status.allowed = true → m.initPromise ≠ none) := by
  have h0 : m.initPromise = none →
      SheetsAPIManager.canMakeApiCalls gapi currentTime m =
        .ok { allowed := false, reason := some "API not initialized" } ∧
      LanguageAPIManager.canMakeApiCalls gapi m =
        .ok { allowed := false, reason := some "Language API not initialized" } := by
    intro h
    simp [SheetsAPIManager.canMakeApiCalls, LanguageAPIManager.canMakeApiCalls,
      SheetsAPIManager.isInitialized, LanguageAPIManager.isInitialized, h]
  refine ⟨h0, ?_, ?_⟩
  · intro status hs ha hnone
    rw [(h0 hnone).1] at hs
    simp only [Except.ok.injEq] at hs
    subst hs
    simp at ha
  · intro status hs ha hnone
    rw [(h0 hnone).2] at hs
    simp only [Except.ok.injEq] at hs
    subst hs
    simp at ha

/-- Witness of C11 (amended): a fresh manager, and a manager whose load was
rejected. -/
theorem canMakeApiCalls_needs_initPromise_witness :
    SheetsAPIManager.canMakeApiCalls (Gapi.client (some { expires_at := none })) 1000
        Manager.new = .ok { allowed := false, reason := some "API not initialized" } ∧
    LanguageAPIManager.canMakeApiCalls (Gapi.client (some { expires_at := none }))
        (LanguageAPIManager.resume 0 (.error { message := "load failed" })
          (LanguageAPIManager.init true Manager.new).1) =
      .ok { allowed := false, reason := some "Language API not initialized" } :=
  ⟨((canMakeApiCalls_needs_initPromise (Gapi.client (some { expires_at := none })) 1000
      Manager.new).1 rfl).1,
   ((canMakeApiCalls_needs_initPromise (Gapi.client (some { expires_at := none })) 1000
      (LanguageAPIManager.resume 0 (.error { message := "load failed" })
        (LanguageAPIManager.init true Manager.new).1)).1 rfl).2⟩

/-- C12: for both managers, when `initialize()` has started an attempt on a
manager whose `initPromise` was `null` and the client is available, every
later `initialize()` made while the attempt is in flight, or after it has
succeeded, returns the promise of that attempt and leaves the manager as it
is: `gapi.client.load` has been called by the first call only. -/
theorem init_is_memoized (g : Bool) (m : Manager) (h : m.initPromise = none) :
    (SheetsAPIManager.init g (SheetsAPIManager.init true m).1 =
        ((SheetsAPIManager.init true m).1, (SheetsAPIManager.init true m).2) ∧
      (SheetsAPIManager.init true m).1.loads =
        m.loads ++ [[SheetsAPIManager.DISCOVERY_DOC], ["drive", "v3"]] ∧
      SheetsAPIManager.init g
          (SheetsAPIManager.resume (SheetsAPIManager.init true m).2 (.ok ())
            (SheetsAPIManager.init true m).1) =
        (SheetsAPIManager.resume (SheetsAPIManager.init true m).2 (.ok ())
            (SheetsAPIManager.init true m).1, (SheetsAPIManager.init true m).2) ∧
      (SheetsAPIManager.resume (SheetsAPIManager.init true m).2 (.ok ())
          (SheetsAPIManager.init true m).1).promises.getD (SheetsAPIManager.init true m).2
          PromiseState.pending = PromiseState.fulfilled ∧
      (SheetsAPIManager.resume (SheetsAPIManager.init true m).2 (.ok ())
          (SheetsAPIManager.init true m).1).loads =
        m.loads ++ [[SheetsAPIManager.DISCOVERY_DOC], ["drive", "v3"]]) ∧
    (LanguageAPIManager.init g (LanguageAPIManager.init true m).1 =
        ((LanguageAPIManager.init true m).1, (LanguageAPIManager.init true m).2) ∧
      (LanguageAPIManager.init true m).1.loads =
        m.loads ++ [[LanguageAPIManager.DISCOVERY_DOC]] ∧
      LanguageAPIManager.init g
          (LanguageAPIManager.resume (LanguageAPIManager.init true m).2 (.ok ())
            (LanguageAPIManager.init true m).1) =
        (LanguageAPIManager.resume (LanguageAPIManager.init true m).2 (.ok ())
            (LanguageAPIManager.init true m).1, (LanguageAPIManager.init true m).2) ∧
      (LanguageAPIManager.resume (LanguageAPIManager.init true m).2 (.ok ())
          (LanguageAPIManager.init true m).1).promises.getD (LanguageAPIManager.init true m).2
          PromiseState.pending = PromiseState.fulfilled ∧
      (LanguageAPIManager.resume (LanguageAPIManager.init true m).2 (.ok ())
          (LanguageAPIManager.init true m).1).loads =
        m.loads ++ [[LanguageAPIManager.DISCOVERY_DOC]]) := by
  constructor
  · have h1 : SheetsAPIManager.init true m =
        ({ m with
            initPromise := some m.promises.length
            promises := m.promises ++ [PromiseState.pending]
            suspended := m.suspended ++ [m.promises.length]
            loads := m.loads ++ [[SheetsAPIManager.DISCOVERY_DOC], ["drive", "v3"]] },
          m.promises.length) := by
      simp [SheetsAPIManager.init, h]
    rw [h1]
    refine ⟨SheetsAPIManager.sheets_init_of_initPromise g _ _ rfl, rfl, ?_, ?_, ?_⟩
    · apply SheetsAPIManager.sheets_init_of_initPromise
      simp [SheetsAPIManager.resume]
    · simp [SheetsAPIManager.resume, List.getD_eq_getElem?_getD]
    · simp [SheetsAPIManager.resume]
  · have h1 : LanguageAPIManager.init true m =
        ({ m with
            initPromise := some m.promises.length
            promises := m.promises ++ [PromiseState.pending]
            suspended := m.suspended ++ [m.promises.length]
            loads := m.loads ++ [[LanguageAPIManager.DISCOVERY_DOC]] },
          m.promises.length) := by
      simp [LanguageAPIManager.init, h]
    rw [h1]
    refine ⟨LanguageAPIManager.language_init_of_initPromise g _ _ rfl, rfl, ?_, ?_, ?_⟩
    · apply LanguageAPIManager.language_init_of_initPromise
      simp [LanguageAPIManager.resume]
    · simp [LanguageAPIManager.resume, List.getD_eq_getElem?_getD]
    · simp [LanguageAPIManager.resume]

/-- Witness of C12 on a fresh Sheets manager: a second call while the first
is in flight loads nothing more. -/
theorem init_is_memoized_witness :
    (SheetsAPIManager.init true (SheetsAPIManager.init true Manager.new).1).1.loads =
      [[SheetsAPIManager.DISCOVERY_DOC], ["drive", "v3"]] ∧
    (SheetsAPIManager.init true (SheetsAPIManager.init true Manager.new).1).2 = 0 := by
  have h := (init_is_memoized true Manager.new rfl).1
  rw [h.1]
  exact ⟨h.2.1, rfl⟩

/-! ## The claims on the sheet creation component -/

namespace GreaterCreateSheet

open Client

theorem inNameClass_ascii : ∀ n, n < 128 →
    inNameClass (Char.ofNat n) = decide (Char.ofNat n ∈ allowedNameCharacters.data) := by
  decide

theorem allowedNameCharacters_ascii :
    ∀ c ∈ allowedNameCharacters.data, c.toNat < 128 := by
  decide

theorem inNameClass_iff (c : Char) :
    inNameClass c = true ↔ c ∈ allowedNameCharacters.data := by
  by_cases h : c.toNat < 128
  · have := inNameClass_ascii c.toNat h
    rw [Char.ofNat_toNat] at this
    rw [this]
    simp
  · constructor
    · intro hc
      simp only [inNameClass, Bool.or_eq_true, Bool.and_eq_true, decide_eq_true_eq] at hc
      omega
    · intro hc
      exact absurd (allowedNameCharacters_ascii c hc) h

theorem jsLength_pos_of_ne_nil (name : String) (h : 2 ≤ jsLength name) :
    name.data ≠ [] := by
  intro hnil
  simp [jsLength, hnil] at h

theorem nameRegexTest_iff (name : String) (h : 2 ≤ jsLength name) :
    nameRegexTest name = true ↔ ∀ c ∈ name.data, c ∈ allowedNameCharacters.data := by
  have hne := jsLength_pos_of_ne_nil name h
  simp only [nameRegexTest, Bool.and_eq_true, Bool.not_eq_true', List.isEmpty_eq_false,
    List.all_eq_true, inNameClass_iff]
  exact ⟨fun hc => hc.2, fun hc => ⟨hne, hc⟩⟩

theorem validateGuestName_valid (sv : Services) (name : String) (log : List Effect)
    (h : ValidGuestName name) : validateGuestName sv name log = (.ok true, log) := by
  obtain ⟨h1, h2, h3⟩ := h
  have hre := (nameRegexTest_iff name h1).2 h3
  have hlen : ¬ (jsLength name < 2 ∨ jsLength name > 50) := by omega
  simp [validateGuestName, hlen, hre, pure, Eff.pure]

theorem validateGuestName_invalid (sv : Services) (name : String) (log : List Effect)
    (h : ¬ ValidGuestName name) :
    ∃ detail, validateGuestName sv name log =
      (.ok false, log ++ [Effect.dispatch "greater-error" (Detail.error detail)]) := by
  by_cases hlen : jsLength name < 2 ∨ jsLength name > 50
  · refine ⟨⟨(sv.clock log).iso, "greater-create-sheet", "ERROR",
      "Guest name must be between 2 and 50 characters",
      "Invalid name length", false⟩, ?_⟩
    simp [validateGuestName, hlen, dispatchError, bind, Eff.bind, pure, Eff.pure]
  · have h1 : 2 ≤ jsLength name := by omega
    have hre : nameRegexTest name = false := by
      cases hr : nameRegexTest name with
      | false => rfl
      | true =>
        exact absurd ⟨h1, by omega, (nameRegexTest_iff name h1).1 hr⟩ h
    refine ⟨⟨(sv.clock log).iso, "greater-create-sheet", "ERROR",
      "Guest name contains invalid characters",
      "Invalid characters", false⟩, ?_⟩
    simp [validateGuestName, hlen, hre, dispatchError, bind, Eff.bind, pure, Eff.pure]

end GreaterCreateSheet

/-- C13: `validateGuestName(name)` returns true if and only if `name` has
between 2 and 50 code units and all its characters are ASCII letters, digits,
spaces, apostrophes or hyphens; it returns false for every other string. The
name `Jo` is accepted and `J@` is rejected. -/
theorem validateGuestName_accepts_exactly_valid_names (sv : Client.Services) (name : String)
    (log : List Client.Effect) :
    ((GreaterCreateSheet.validateGuestName sv name log).1 = .ok true ↔ ValidGuestName name) ∧
    (¬ ValidGuestName name →
      (GreaterCreateSheet.validateGuestName sv name log).1 = .ok false) ∧
    (GreaterCreateSheet.validateGuestName sv "Jo" log).1 = .ok true ∧
    (GreaterCreateSheet.validateGuestName sv "J@" log).1 = .ok false := by
  have hinv : ¬ ValidGuestName name →
      (GreaterCreateSheet.validateGuestName sv name log).1 = .ok false := by
    intro h
    obtain ⟨d, hd⟩ := GreaterCreateSheet.validateGuestName_invalid sv name log h
    rw [hd]
  refine ⟨⟨?_, fun h => by rw [GreaterCreateSheet.validateGuestName_valid sv name log h]⟩,
    hinv, ?_, ?_⟩
  · intro h
    by_contra hn
    rw [hinv hn] at h
    simp at h
  · rw [GreaterCreateSheet.validateGuestName_valid sv "Jo" log (by decide)]
  · obtain ⟨d, hd⟩ := GreaterCreateSheet.validateGuestName_invalid sv "J@" log (by decide)
    rw [hd]

/-- Witness of C13: a name of 51 letters is rejected. -/
theorem validateGuestName_accepts_exactly_valid_names_witness :
    (GreaterCreateSheet.validateGuestName (okServices [] "")
      "abcdefghijklmnopqrstuvwxyzabcdefghijklmnopqrstuvwxy" []).1 = .ok false :=
  (validateGuestName_accepts_exactly_valid_names (okServices [] "")
    "abcdefghijklmnopqrstuvwxyzabcdefghijklmnopqrstuvwxy" []).2.1 (by decide)

/-- C14: when the trimmed guest name is not valid (fewer than 2 or more than
50 code units, or a character outside the allowed set), `handleSubmit` returns
with the component state as it was, and its only effect is one `greater-error`
event: no request is sent, nothing is written to session storage and no
`greater-sheet-created` event is dispatched. -/
theorem invalid_name_submits_nothing (sv : Client.Services) (manager : Manager)
    (value : String) (s : GreaterCreateSheet.State) (log : List Client.Effect)
    (h : ¬ ValidGuestName (jsTrim value)) :
    ∃ detail, GreaterCreateSheet.handleSubmit sv manager value s log =
      (.ok s, log ++ [Client.Effect.dispatch "greater-error" (Client.Detail.error detail)]) := by
  by_cases hready : s.apiReady = true
  · obtain ⟨d, hd⟩ := GreaterCreateSheet.validateGuestName_invalid sv (jsTrim value) log h
    refine ⟨d, ?_⟩
    simp [GreaterCreateSheet.handleSubmit, hready, bind, Client.Eff.bind, hd, pure,
      Client.Eff.pure]
  · refine ⟨⟨(sv.clock log).iso, "greater-create-sheet", "ERROR",
      "Please wait for API initialization",
      "API not ready", false⟩, ?_⟩
    simp [GreaterCreateSheet.handleSubmit, hready, GreaterCreateSheet.dispatchError, bind,
      Client.Eff.bind, pure, Client.Eff.pure]

/-- Witness of C14: the name `J@`, submitted with spaces around it, leaves the
state as it was and has one effect. -/
theorem invalid_name_submits_nothing_witness :
    (GreaterCreateSheet.handleSubmit (okServices [] "") readySheetsManager "  J@ "
        { GreaterCreateSheet.State.new with apiReady := true } []).1 =
      .ok { GreaterCreateSheet.State.new with apiReady := true } ∧
    (GreaterCreateSheet.handleSubmit (okServices [] "") readySheetsManager "  J@ "
        { GreaterCreateSheet.State.new with apiReady := true } []).2.length = 1 := by
  obtain ⟨d, hd⟩ := invalid_name_submits_nothing (okServices [] "") readySheetsManager "  J@ "
    { GreaterCreateSheet.State.new with apiReady := true } [] (by decide)
  rw [hd]
  exact ⟨rfl, rfl⟩

/-- C20: when the Sheets manager is initialized, the create request is answered
with a spreadsheet id and the updates succeed, `createSheet` sends, in this
order, the create request with the three tabs Bookings, Keywords and Logs and
one header row to each tab (followed by the first log entry), and returns the
result; each header row has as many cells as its range has columns: 13 for
`Bookings!A1:M1`, 3 for `Keywords!A1:C1`, 2 for `Logs!A1:B1`. -/
theorem createSheet_writes_three_headers (sv : Client.Services) (manager : Manager)
    (guestName : String) (log : List Client.Effect) (result : Client.SheetResult)
    (hinit : SheetsAPIManager.isInitialized manager = true)
    (hcreate : sv.create log (guestName ++ " Lead List & Bookings")
      GreaterCreateSheet.sheetTabs = .ok { result := some result })
    (hid : Client.truthy result.spreadsheetId = true)
    (hupdate : ∀ l range values, sv.update l result.spreadsheetId range values = .ok ()) :
    GreaterCreateSheet.createSheet sv manager guestName log =
      (.ok (some result),
       log ++
        [Client.Effect.call (Client.Call.spreadsheetsCreate
            (guestName ++ " Lead List & Bookings")
            [{ title := "Bookings", frozenRowCount := 1 },
             { title := "Keywords", frozenRowCount := 1 },
             { title := "Logs", frozenRowCount := 1 }]),
         Client.Effect.call (Client.Call.valuesUpdate result.spreadsheetId "Bookings!A1:M1"
            "RAW" [GreaterCreateSheet.bookingsHeader]),
         Client.Effect.call (Client.Call.valuesUpdate result.spreadsheetId "Keywords!A1:C1"
            "RAW" [["Keyword", "Type", "Relevance"]]),
         Client.Effect.call (Client.Call.valuesUpdate result.spreadsheetId "Logs!A1:B1"
            "RAW" [["Date/Time", "Event"]]),
         Client.Effect.call (Client.Call.valuesUpdate result.spreadsheetId "Logs!A2:B2"
            "RAW"
            [[(sv.clock (log ++
                [Client.Effect.call (Client.Call.spreadsheetsCreate
                    (guestName ++ " Lead List & Bookings") GreaterCreateSheet.sheetTabs),
                 Client.Effect.call (Client.Call.valuesUpdate result.spreadsheetId
                    "Bookings!A1:M1" "RAW" [GreaterCreateSheet.bookingsHeader]),
                 Client.Effect.call (Client.Call.valuesUpdate result.spreadsheetId
                    "Keywords!A1:C1" "RAW" [["Keyword", "Type", "Relevance"]]),
                 Client.Effect.call (Client.Call.valuesUpdate result.spreadsheetId
                    "Logs!A1:B1" "RAW" [["Date/Time", "Event"]])])).locale,
              "Sheet created"]])]) ∧
    GreaterCreateSheet.bookingsHeader.length = 13 ∧
    rangeColumns "Bookings!A1:M1" = some 13 ∧
    rangeColumns "Keywords!A1:C1" = some 3 ∧
    rangeColumns "Logs!A1:B1" = some 2 := by
  refine ⟨?_, by decide, by decide, by decide, by decide⟩
  simp only [GreaterCreateSheet.sheetTabs] at hcreate
  simp [GreaterCreateSheet.createSheet, hinit, Client.Eff.tryCatch, bind, Client.Eff.bind,
    Client.Eff.start, Client.Eff.await, Client.Eff.newDate, Client.startUpdate, hcreate, hid,
    hupdate, pure, Client.Eff.pure, GreaterCreateSheet.sheetTabs]

/-- Witness of C20: the name `Jo` with services that succeed. -/
theorem createSheet_writes_three_headers_witness :
    ((GreaterCreateSheet.createSheet (okServices [] "") readySheetsManager "Jo" []).2.map
      fun effect =>
        match effect with
        | Client.Effect.call (Client.Call.valuesUpdate _ range _ values) =>
          (range, values.map List.length)
        | _ => ("", [])) =
      [("", []), ("Bookings!A1:M1", [13]), ("Keywords!A1:C1", [3]), ("Logs!A1:B1", [2]),
       ("Logs!A2:B2", [2])] := by
  rw [(createSheet_writes_three_headers (okServices [] "") readySheetsManager "Jo" []
    { spreadsheetId := some "sheet-1",
      spreadsheetUrl := some "https://docs.google.com/d/sheet-1" }
    (by decide) rfl (by decide) (fun _ _ _ => rfl)).1]
  rfl

/-! ## The claims on the error list component -/

namespace GreaterErrors

theorem sliceFromEnd_length (xs : List ErrorObject) : (sliceFromEnd 3 xs).length ≤ 3 := by
  simp only [sliceFromEnd, List.length_drop]
  omega

theorem sliceFromEnd_eq_reverse_take (n : Nat) (xs : List ErrorObject) :
    sliceFromEnd n xs = ((xs.reverse.take n).reverse) := by
  simp [sliceFromEnd, List.reverse_take]

theorem step_length (s : State) (st : Step) (h : s.errors.length ≤ 3) :
    (step s st).errors.length ≤ 3 := by
  cases st with
  | event detail =>
    cases detail with
    | none => simp [step, handleError]
    | some error =>
      simp only [step, handleError]
      split <;> exact sliceFromEnd_length _
  | dismiss error =>
    simp only [step, removeError]
    exact le_trans (List.length_filter_le _ _) h
  | expiry error =>
    simp only [step, timerExpires]
    split
    · simp only [removeError]
      exact le_trans (List.length_filter_le _ _) h
    · exact h

theorem run_length (steps : List Step) (s : State) (h : s.errors.length ≤ 3) :
    (run steps s).errors.length ≤ 3 := by
  induction steps generalizing s with
  | nil => exact h
  | cons st rest ih => exact ih (step s st) (step_length s st h)

end GreaterErrors

/-- C18: after any sequence of `greater-error` events, dismissals and timer
expiries the errors list has at most 3 entries, and handling an event that
carries an error makes the list the last 3 elements of the previous list
followed by the new error, oldest first. -/
theorem errors_keep_last_three (steps : List GreaterErrors.Step)
    (s : GreaterErrors.State) (error : GreaterErrors.ErrorObject) :
    (GreaterErrors.run steps GreaterErrors.State.new).errors.length ≤ 3 ∧
    (GreaterErrors.handleError (some error) s).errors =
      (((s.errors ++ [error]).reverse.take 3).reverse) := by
  refine ⟨GreaterErrors.run_length steps _ (by simp [GreaterErrors.State.new]), ?_⟩
  rw [← GreaterErrors.sliceFromEnd_eq_reverse_take]
  simp only [GreaterErrors.handleError]
  split <;> rfl

namespace GreaterErrors

theorem step_timersPlain (s : State) (st : Step) (h : TimersPlain s) :
    TimersPlain (step s st) := by
  cases st with
  | event detail =>
    cases detail with
    | none => exact h
    | some error =>
      simp only [step, handleError]
      cases hc : error.detail.critical with
      | true =>
        simp only [Bool.not_true, Bool.false_eq_true, if_false]
        exact h
      | false =>
        intro t ht
        simp only [Bool.not_false, if_true, List.mem_append, List.mem_singleton] at ht
        rcases ht with ht | ht
        · exact h t ht
        · rw [ht]; exact hc
  | dismiss error => exact h
  | expiry error =>
    simp only [step, timerExpires]
    split
    · intro t ht
      exact h t (List.mem_of_mem_erase ht)
    · exact h

theorem run_timersPlain (steps : List Step) (s : State) (h : TimersPlain s) :
    TimersPlain (run steps s) := by
  induction steps generalizing s with
  | nil => exact h
  | cons st rest ih => exact ih (step s st) (step_timersPlain s st h)

theorem last_occurrence (c : ErrorObject) (errors : List ErrorObject) (h : c ∈ errors) :
    ∃ front back, errors = front ++ c :: back ∧ c ∉ back := by
  induction errors with
  | nil => cases h
  | cons x rest ih =>
    by_cases hrest : c ∈ rest
    · obtain ⟨front, back, hl, hb⟩ := ih hrest
      exact ⟨x :: front, back, by rw [hl]; rfl, hb⟩
    · have hx : c = x := by
        rcases List.mem_cons.1 h with h1 | h1
        · exact h1
        · exact absurd h1 hrest
      subst hx
      exact ⟨[], rest, rfl, hrest⟩

theorem added_keeps (c error : ErrorObject) (front back : List ErrorObject)
    (hroom : back.length < 2) :
    c ∈ sliceFromEnd 3 (front ++ c :: back ++ [error]) := by
  have hlen : (front ++ c :: back ++ [error]).length =
      front.length + (back.length + 1) + 1 := by
    simp
    omega
  rw [sliceFromEnd, hlen, List.append_assoc, List.drop_append_of_le_length (by omega)]
  simp

theorem removed_keeps (c error : ErrorObject) (errors : List ErrorObject) (h : c ∈ errors)
    (hne : c ≠ error) : c ∈ errors.filter fun e => e != error := by
  simp [List.mem_filter, h, hne]

theorem critical_stays (c : ErrorObject) (hc : c.detail.critical = true)
    (post : List Step) :
    ∀ s : State, TimersPlain s → c ∈ s.errors →
      Step.event none ∉ post → Step.dismiss c ∉ post →
      (∀ (before : List Step) (error : ErrorObject) (after : List Step)
          (front back : List ErrorObject),
        post = before ++ Step.event (some error) :: after →
        (run before s).errors = front ++ c :: back → c ∉ back → back.length < 2) →
      c ∈ (run post s).errors := by
  induction post with
  | nil =>
    intro s _ hmem _ _ _
    exact hmem
  | cons st rest ih =>
    intro s hinv hmem hclear hdismiss hroom
    have hclear1 : Step.event none ∉ rest := fun h => hclear (List.mem_cons_of_mem _ h)
    have hdismiss1 : Step.dismiss c ∉ rest := fun h => hdismiss (List.mem_cons_of_mem _ h)
    have hinv1 := step_timersPlain s st hinv
    have hroom1 : ∀ (before : List Step) (error : ErrorObject) (after : List Step)
        (front back : List ErrorObject),
        rest = before ++ Step.event (some error) :: after →
        (run before (step s st)).errors = front ++ c :: back → c ∉ back →
        back.length < 2 := by
      intro before error after front back hsplit hl hb
      exact hroom (st :: before) error after front back (by rw [hsplit]; rfl) hl hb
    have hstep : c ∈ (step s st).errors := by
      cases st with
      | event detail =>
        cases detail with
        | none => exact absurd (List.mem_cons_self _ _) hclear
        | some error =>
          obtain ⟨front, back, hl, hb⟩ := last_occurrence c s.errors hmem
          have hlt := hroom [] error rest front back rfl hl hb
          have herr : (step s (Step.event (some error))).errors =
              sliceFromEnd 3 (s.errors ++ [error]) := by
            simp only [step, handleError]
            split <;> rfl
          rw [herr, hl]
          exact added_keeps c error front back hlt
      | dismiss error =>
        have hne : c ≠ error := by
          intro h
          rw [h] at hdismiss
          exact hdismiss (List.mem_cons_self _ _)
        exact removed_keeps c error s.errors hmem hne
      | expiry error =>
        by_cases ht : error ∈ s.timers
        · have hne : c ≠ error := by
            intro h
            have := hinv error ht
            rw [← h, hc] at this
            exact Bool.noConfusion this
          have herr : (step s (Step.expiry error)).errors =
              s.errors.filter fun e => e != error := by
            simp only [step, timerExpires, ht, if_true, removeError]
          rw [herr]
          exact removed_keeps c error s.errors hmem hne
        · have herr : (step s (Step.expiry error)).errors = s.errors := by
            simp only [step, timerExpires, ht, if_false]
          rw [herr]
          exact hmem
    exact ih (step s st) hinv1 hstep hclear1 hdismiss1 hroom1

theorem room_of_prefixes (c : ErrorObject) (s : State) (post : List Step)
    (h : ∀ i, i < post.length → (run (post.take i) s).errors.length ≤ 2) :
    ∀ (before : List Step) (error : ErrorObject) (after : List Step)
        (front back : List ErrorObject),
      post = before ++ Step.event (some error) :: after →
      (run before s).errors = front ++ c :: back → c ∉ back → back.length < 2 := by
  intro before error after front back hsplit hl _
  have hlen := h before.length (by rw [hsplit]; simp)
  have htake : post.take before.length = before := by
    rw [hsplit]
    simp
  rw [htake, hl] at hlen
  simp at hlen
  omega

end GreaterErrors

/-- C19, at concrete inputs: a critical error that is in the list is removed,
without any dismissal, by a `greater-error` event with `detail: null` (the
event `clearError()` dispatches), and also by three later errors. -/
theorem critical_error_is_cleared :
    criticalError.detail.critical = true ∧
    criticalError ∈
      (GreaterErrors.run [GreaterErrors.Step.event (some criticalError)]
        GreaterErrors.State.new).errors ∧
    criticalError ∉
      (GreaterErrors.run
        [GreaterErrors.Step.event (some criticalError), GreaterErrors.Step.event none]
        GreaterErrors.State.new).errors ∧
    criticalError ∉
      (GreaterErrors.run
        [GreaterErrors.Step.event (some criticalError),
         GreaterErrors.Step.event (some (plainError 1)),
         GreaterErrors.Step.event (some (plainError 2)),
         GreaterErrors.Step.event (some (plainError 3))]
        GreaterErrors.State.new).errors :=
  ⟨rfl, by decide, by decide, by decide⟩

/-- C19, amended: a critical error that is in the list is still in the list
after every sequence of later events, timer expiries and dismissals of other
errors, provided that no event of the sequence has `detail: null` and that no
event of the sequence adds an error at a time when two errors are listed
after the critical one. No timer expiry removes it, and errors that have left
the list do not count against it. -/
theorem critical_error_outlives_timers (pre post : List GreaterErrors.Step)
    (c : GreaterErrors.ErrorObject)
    (hc : c.detail.critical = true)
    (hlist : c ∈ (GreaterErrors.run pre GreaterErrors.State.new).errors)
    (hclear : GreaterErrors.Step.event none ∉ post)
    (hdismiss : GreaterErrors.Step.dismiss c ∉ post)
    (hroom : ∀ (before : List GreaterErrors.Step) (error : GreaterErrors.ErrorObject)
        (after : List GreaterErrors.Step) (front back : List GreaterErrors.ErrorObject),
      post = before ++ GreaterErrors.Step.event (some error) :: after →
      (GreaterErrors.run before (GreaterErrors.run pre GreaterErrors.State.new)).errors =
        front ++ c :: back →
      c ∉ back → back.length < 2) :
    c ∈ (GreaterErrors.run post (GreaterErrors.run pre GreaterErrors.State.new)).errors :=
  GreaterErrors.critical_stays c hc post _
    (GreaterErrors.run_timersPlain pre _ (by intro t ht; simp [GreaterErrors.State.new] at ht))
    hlist hclear hdismiss hroom

/-- Witness of C19 (amended): a critical error, then three plain errors of
which the first two expire before the next one arrives; the timer of the
critical error, which was never set, does nothing. -/
theorem critical_error_outlives_timers_witness :
    criticalError ∈
      (GreaterErrors.run
        [GreaterErrors.Step.event (some (plainError 1)),
         GreaterErrors.Step.expiry (plainError 1),
         GreaterErrors.Step.expiry criticalError,
         GreaterErrors.Step.event (some (plainError 2)),
         GreaterErrors.Step.expiry (plainError 2),
         GreaterErrors.Step.event (some (plainError 3))]
        (GreaterErrors.run [GreaterErrors.Step.event (some criticalError)]
          GreaterErrors.State.new)).errors :=
  critical_error_outlives_timers [GreaterErrors.Step.event (some criticalError)]
    [GreaterErrors.Step.event (some (plainError 1)),
     GreaterErrors.Step.expiry (plainError 1),
     GreaterErrors.Step.expiry criticalError,
     GreaterErrors.Step.event (some (plainError 2)),
     GreaterErrors.Step.expiry (plainError 2),
     GreaterErrors.Step.event (some (plainError 3))]
    criticalError rfl (by decide) (by decide) (by decide)
    (GreaterErrors.room_of_prefixes _ _ _ (by decide))

/-! ## The claims on the URL analysis component -/

namespace GreaterFetchAnalyze

open Client

theorem fetchUrlContent_content (sv : Services) (url text : String) (log : List Effect)
    (hproxy : sv.proxy log url =
      .ok { ok := true, json := .ok (Worker.Json.obj [("content", Worker.Json.str text)]) }) :
    fetchUrlContent sv url log =
      (.ok (some (Worker.Json.str text)), log ++ [Effect.call (Call.proxy url)]) := by
  simp [fetchUrlContent, bind, Eff.bind, Eff.start, Eff.await, hproxy, Worker.destructure,
    Worker.lookupMember, pure, Eff.pure]

theorem analysis_success (sv : Services) (url text : String) (s : State)
    (entities : List Entity) (log : List Effect)
    (hproxy : ∀ l, sv.proxy l url =
      .ok { ok := true, json := .ok (Worker.Json.obj [("content", Worker.Json.str text)]) })
    (htext : jsTrim text ≠ "") (hsize : text.utf8ByteSize ≤ 1048576)
    (hanalyze : ∀ l, sv.analyze l text = .ok { result := some { entities := some entities } })
    (hclear : ∀ l, sv.clear l s.sheetId "Keywords!A2:C" = .ok ())
    (hupdate : ∀ l range values, sv.update l s.sheetId range values = .ok ()) :
    analysis sv url s log =
      (.ok { s with
          successMessage := "Analysis complete! Found " ++
            toString (personRows entities).length ++ " person mentions." },
       log ++ [Effect.call (Call.proxy url),
          Effect.call (Call.analyzeEntities text "PLAIN_TEXT"),
          Effect.call (Call.valuesClear s.sheetId "Keywords!A2:C")] ++
        (if (personRows entities).length = 0 then []
         else [Effect.call (Call.valuesUpdate s.sheetId
            ("Keywords!A2:C" ++ toString ((personRows entities).length + 1)) "RAW"
            (personRows entities))]) ++
        [Effect.call (Call.valuesUpdate s.sheetId "Logs!A2:B2" "RAW"
            [[(sv.clock (log ++ [Effect.call (Call.proxy url),
                  Effect.call (Call.analyzeEntities text "PLAIN_TEXT"),
                  Effect.call (Call.valuesClear s.sheetId "Keywords!A2:C")] ++
                (if (personRows entities).length = 0 then []
                 else [Effect.call (Call.valuesUpdate s.sheetId
                    ("Keywords!A2:C" ++ toString ((personRows entities).length + 1)) "RAW"
                    (personRows entities))]))).locale,
              "URL analyzed: " ++ url ++ " (found " ++
                toString (personRows entities).length ++ " person entities)"]]),
         Effect.formReset]) := by
  have hmax : ¬ text.utf8ByteSize > MAX_CONTENT_SIZE := by
    simp only [MAX_CONTENT_SIZE]; omega
  have hfetch := fetchUrlContent_content sv url text log (hproxy log)
  by_cases hn : (personRows entities).length = 0
  · simp [analysis, bind, Eff.bind, hfetch, Eff.await, asText, htext, hmax, Eff.start,
      hanalyze, entitiesOf, asList, hclear, hn, Eff.newDate, updateValues, startUpdate,
      hupdate, Eff.emit, pure, Eff.pure]
  · have hpos : 0 < (personRows entities).length := Nat.pos_of_ne_zero hn
    simp [analysis, bind, Eff.bind, hfetch, Eff.await, asText, htext, hmax, Eff.start,
      hanalyze, entitiesOf, asList, hclear, hn, hpos, Eff.newDate, updateValues, startUpdate,
      hupdate, Eff.emit, pure, Eff.pure]

theorem handleSubmit_checked (sv : Services) (gapi : Gapi) (sheets language : Manager)
    (form : Form) (s : State) (log : List Effect) (value : String)
    (hform : form.urlInput = some value) (hvalue : jsTrim value ≠ "")
    (hcan : ∀ l, canMakeApiCalls sv gapi sheets language l = (.ok true, l))
    (hsheet : truthy s.sheetId = true) (hurl : sv.urlParses (jsTrim value) = true) :
    handleSubmit sv gapi sheets language form s log =
      match analysis sv (jsTrim value) { s with successMessage := "", isLoading := true }
          (log ++ [Effect.dispatch "greater-error" Detail.null]) with
      | (.ok s2, l) => (.ok { s2 with isLoading := false }, l)
      | (.error e, l) =>
        match analysisFailed sv (jsTrim value)
            { s with successMessage := "", isLoading := true } e l with
        | (.ok s2, l2) => (.ok { s2 with isLoading := false }, l2)
        | (.error e2, l2) =>
          ((dispatchError sv "Failed to verify API access" e2 l2).1.map
              fun _ => { s with successMessage := "" },
            (dispatchError sv "Failed to verify API access" e2 l2).2) := by
  simp only [handleSubmit, bind, Eff.bind, clearError, Eff.emit, validateContent, hform, hvalue,
    if_false, pure, Eff.pure, Bool.not_true, Bool.false_eq_true, Eff.tryCatch, hcan, hsheet,
    validateUrl, hurl, if_true]
  cases h1 : analysis sv (jsTrim value) { s with successMessage := "", isLoading := true }
      (log ++ [Effect.dispatch "greater-error" Detail.null]) with
  | mk a l =>
    cases a with
    | ok s2 => rfl
    | error e =>
      simp only
      cases h2 : analysisFailed sv (jsTrim value)
          { s with successMessage := "", isLoading := true } e l with
      | mk b l2 =>
        cases b with
        | ok s3 => rfl
        | error e2 => rfl

end GreaterFetchAnalyze

theorem occursIn_nil (l : List Char) : occursIn [] l = true := by
  cases l <;> simp [occursIn]

theorem occursIn_append_right (sub a b : List Char) (h : occursIn sub a = true) :
    occursIn sub (a ++ b) = true := by
  induction a with
  | nil =>
    simp only [occursIn, List.isEmpty_iff] at h
    subst h
    exact occursIn_nil _
  | cons c cs ih =>
    simp only [occursIn, Bool.or_eq_true] at h
    simp only [List.cons_append, occursIn, Bool.or_eq_true]
    rcases h with h | h
    · left
      rw [List.isPrefixOf_iff_prefix] at h ⊢
      exact h.trans (List.prefix_append (c :: cs) b)
    · right
      exact ih h

theorem utf8ByteSize_go_replicate (n : Nat) :
    String.utf8ByteSize.go (List.replicate n 'a') = n := by
  induction n with
  | zero => rfl
  | succ k ih =>
    rw [List.replicate_succ, String.utf8ByteSize.go, ih]
    rfl

theorem utf8ByteSize_replicate (n : Nat) :
    (String.mk (List.replicate n 'a')).utf8ByteSize = n :=
  utf8ByteSize_go_replicate n

theorem jsTrim_replicate (n : Nat) (h : 0 < n) :
    jsTrim (String.mk (List.replicate n 'a')) ≠ "" := by
  obtain ⟨k, rfl⟩ : ∃ k, n = k + 1 := ⟨n - 1, by omega⟩
  have ha : isTrimmable 'a' = false := by decide
  have h1 : (List.replicate (k + 1) 'a').dropWhile isTrimmable = List.replicate (k + 1) 'a' := by
    rw [List.replicate_succ, List.dropWhile_cons, ha]
    rfl
  intro hcontra
  have hdata := congrArg String.data hcontra
  simp only [jsTrim, h1, List.reverse_replicate, List.reverse_eq_iff] at hdata
  rw [List.replicate_succ] at hdata
  simp at hdata

namespace GreaterFetchAnalyze

open Client

theorem analysis_too_large (sv : Services) (url text : String) (s : State)
    (log : List Effect)
    (hproxy : ∀ l, sv.proxy l url =
      .ok { ok := true, json := .ok (Worker.Json.obj [("content", Worker.Json.str text)]) })
    (htext : jsTrim text ≠ "") (hsize : text.utf8ByteSize > 1048576) :
    analysis sv url s log =
      (.error { message := "URL content exceeds size limit (" ++
          megabytesToFixed1 text.utf8ByteSize ++ "MB > 1MB)" },
       log ++ [Effect.call (Call.proxy url)]) := by
  have hmax : text.utf8ByteSize > MAX_CONTENT_SIZE := by
    simp only [MAX_CONTENT_SIZE]; omega
  have hfetch := fetchUrlContent_content sv url text log (hproxy log)
  simp [analysis, bind, Eff.bind, hfetch, Eff.await, asText, htext, hmax, Eff.throw]

theorem sizeMessage_includes (size : String) :
    jsIncludes ("URL content exceeds size limit (" ++ size ++ "MB > 1MB)") "size limit"
      = true := by
  simp only [jsIncludes, String.data_append, List.append_assoc]
  exact occursIn_append_right _ _ _ (by decide)

theorem handleSubmit_success (sv : Services) (gapi : Gapi) (sheets language : Manager)
    (form : Form) (s : State) (log : List Effect) (value text : String)
    (entities : List Entity)
    (hform : form.urlInput = some value) (hvalue : jsTrim value ≠ "")
    (hcan : ∀ l, canMakeApiCalls sv gapi sheets language l = (.ok true, l))
    (hsheet : truthy s.sheetId = true) (hurl : sv.urlParses (jsTrim value) = true)
    (hproxy : ∀ l, sv.proxy l (jsTrim value) =
      .ok { ok := true, json := .ok (Worker.Json.obj [("content", Worker.Json.str text)]) })
    (htext : jsTrim text ≠ "") (hsize : text.utf8ByteSize ≤ 1048576)
    (hanalyze : ∀ l, sv.analyze l text = .ok { result := some { entities := some entities } })
    (hclear : ∀ l, sv.clear l s.sheetId "Keywords!A2:C" = .ok ())
    (hupdate : ∀ l range values, sv.update l s.sheetId range values = .ok ()) :
    handleSubmit sv gapi sheets language form s log =
      (.ok { s with
          isLoading := false
          successMessage := "Analysis complete! Found " ++
            toString (personRows entities).length ++ " person mentions." },
       log ++ [Effect.dispatch "greater-error" Detail.null,
          Effect.call (Call.proxy (jsTrim value)),
          Effect.call (Call.analyzeEntities text "PLAIN_TEXT"),
          Effect.call (Call.valuesClear s.sheetId "Keywords!A2:C")] ++
        (if (personRows entities).length = 0 then []
         else [Effect.call (Call.valuesUpdate s.sheetId
            ("Keywords!A2:C" ++ toString ((personRows entities).length + 1)) "RAW"
            (personRows entities))]) ++
        [Effect.call (Call.valuesUpdate s.sheetId "Logs!A2:B2" "RAW"
            [[(sv.clock (log ++ [Effect.dispatch "greater-error" Detail.null,
                  Effect.call (Call.proxy (jsTrim value)),
                  Effect.call (Call.analyzeEntities text "PLAIN_TEXT"),
                  Effect.call (Call.valuesClear s.sheetId "Keywords!A2:C")] ++
                (if (personRows entities).length = 0 then []
                 else [Effect.call (Call.valuesUpdate s.sheetId
                    ("Keywords!A2:C" ++ toString ((personRows entities).length + 1)) "RAW"
                    (personRows entities))]))).locale,
              "URL analyzed: " ++ jsTrim value ++ " (found " ++
                toString (personRows entities).length ++ " person entities)"]]),
         Effect.formReset]) := by
  rw [handleSubmit_checked sv gapi sheets language form s log value hform hvalue hcan hsheet
    hurl]
  rw [analysis_success sv (jsTrim value) text { s with successMessage := "", isLoading := true }
    entities _ hproxy htext hsize hanalyze hclear hupdate]
  simp

end GreaterFetchAnalyze

namespace GreaterFetchAnalyze

open Client

theorem analysisFailed_content (sv : Services) (url : String) (s : State)
    (error : Worker.JsError) (l : List Effect)
    (hinc : (jsIncludes error.message "empty content" ||
      jsIncludes error.message "size limit") = true) :
    analysisFailed sv url s error l =
      (.ok { s with successMessage := "" },
       l ++ [Effect.call (Call.valuesUpdate s.sheetId "Logs!A2:B2" "RAW"
              [[(sv.clock l).locale, "Error: " ++ error.message ++ " - " ++ url]]),
             Effect.dispatch "greater-error" (Detail.error
              { timestamp := (sv.clock (l ++ [Effect.call (Call.valuesUpdate s.sheetId
                    "Logs!A2:B2" "RAW"
                    [[(sv.clock l).locale, "Error: " ++ error.message ++ " - " ++ url]])])).iso
                component := "greater-fetch-analyze"
                type := "ERROR"
                message := "Failed to analyze URL"
                technical := error.message
                critical := false })]) := by
  simp [analysisFailed, hinc, bind, Eff.bind, Eff.newDate, startUpdate, Eff.start,
    dispatchError, pure, Eff.pure]

theorem handleSubmit_content_error (sv : Services) (gapi : Gapi) (sheets language : Manager)
    (form : Form) (s : State) (log : List Effect) (value : String)
    (error : Worker.JsError) (request : Effect)
    (hform : form.urlInput = some value) (hvalue : jsTrim value ≠ "")
    (hcan : ∀ l, canMakeApiCalls sv gapi sheets language l = (.ok true, l))
    (hsheet : truthy s.sheetId = true) (hurl : sv.urlParses (jsTrim value) = true)
    (hfail : analysis sv (jsTrim value) { s with successMessage := "", isLoading := true }
      (log ++ [Effect.dispatch "greater-error" Detail.null]) =
        (.error error, log ++ [Effect.dispatch "greater-error" Detail.null] ++ [request]))
    (hinc : (jsIncludes error.message "empty content" ||
      jsIncludes error.message "size limit") = true) :
    handleSubmit sv gapi sheets language form s log =
      (.ok { s with isLoading := false, successMessage := "" },
       log ++
        [Effect.dispatch "greater-error" Detail.null,
         request,
         Effect.call (Call.valuesUpdate s.sheetId "Logs!A2:B2" "RAW"
            [[(sv.clock (log ++ [Effect.dispatch "greater-error" Detail.null, request])).locale,
              "Error: " ++ error.message ++ " - " ++ jsTrim value]]),
         Effect.dispatch "greater-error" (Detail.error
            { timestamp := (sv.clock (log ++
                [Effect.dispatch "greater-error" Detail.null,
                 request,
                 Effect.call (Call.valuesUpdate s.sheetId "Logs!A2:B2" "RAW"
                    [[(sv.clock (log ++
                        [Effect.dispatch "greater-error" Detail.null, request])).locale,
                      "Error: " ++ error.message ++ " - " ++ jsTrim value]])])).iso
              component := "greater-fetch-analyze"
              type := "ERROR"
              message := "Failed to analyze URL"
              technical := error.message
              critical := false })]) := by
  rw [handleSubmit_checked sv gapi sheets language form s log value hform hvalue hcan hsheet
    hurl, hfail]
  simp only []
  rw [analysisFailed_content sv (jsTrim value) _ error _ hinc]
  simp

end GreaterFetchAnalyze



theorem canMakeApiCalls_ready (sv : Client.Services) (l : List Client.Effect) :
    GreaterFetchAnalyze.canMakeApiCalls sv (Gapi.client (some { expires_at := none }))
      readySheetsManager readyLanguageManager l = (.ok true, l) :=
  rfl


/-- C15, at a concrete input: a page text of exactly 1,048,576 bytes is not
rejected: the entity-analysis request is sent with it and the submit ends
with the success message. -/
theorem one_megabyte_is_analysed :
    oneMegabyteText.utf8ByteSize = 1048576 ∧
    Client.Effect.call (Client.Call.analyzeEntities oneMegabyteText "PLAIN_TEXT") ∈
      (GreaterFetchAnalyze.handleSubmit (okServices [] oneMegabyteText)
        (Gapi.client (some { expires_at := none })) readySheetsManager readyLanguageManager
        { urlInput := some "https://example.com" } analyzeState []).2 ∧
    ((GreaterFetchAnalyze.handleSubmit (okServices [] oneMegabyteText)
        (Gapi.client (some { expires_at := none })) readySheetsManager readyLanguageManager
        { urlInput := some "https://example.com" } analyzeState []).1.toOption.map
      GreaterFetchAnalyze.State.successMessage) =
      some "Analysis complete! Found 0 person mentions." := by
  have hsize : oneMegabyteText.utf8ByteSize = 1048576 := utf8ByteSize_replicate 1048576
  have htext : jsTrim oneMegabyteText ≠ "" := jsTrim_replicate 1048576 (by decide)
  have hrun := GreaterFetchAnalyze.handleSubmit_success (okServices [] oneMegabyteText)
    (Gapi.client (some { expires_at := none })) readySheetsManager readyLanguageManager
    { urlInput := some "https://example.com" } analyzeState [] "https://example.com"
    oneMegabyteText [] rfl (by decide) (canMakeApiCalls_ready _) (by decide) rfl
    (fun _ => rfl) htext (le_of_eq hsize) (fun _ => rfl) (fun _ => rfl) (fun _ _ _ => rfl)
  rw [hrun]
  refine ⟨hsize, ?_, rfl⟩
  simp


/-- C15, amended: when the fetched page text is not blank and its size in
UTF-8 bytes is greater than 1,048,576, `handleSubmit` sends no entity-analysis
request: after the proxy request it writes the size-limit error to the Logs
tab, dispatches it as a `greater-error` event, and leaves no success message. -/
theorem oversize_content_is_rejected (sv : Client.Services) (gapi : Gapi)
    (sheets language : Manager) (form : GreaterFetchAnalyze.Form)
    (s : GreaterFetchAnalyze.State) (log : List Client.Effect) (value text : String)
    (hform : form.urlInput = some value) (hvalue : jsTrim value ≠ "")
    (hcan : ∀ l, GreaterFetchAnalyze.canMakeApiCalls sv gapi sheets language l = (.ok true, l))
    (hsheet : Client.truthy s.sheetId = true) (hurl : sv.urlParses (jsTrim value) = true)
    (hproxy : ∀ l, sv.proxy l (jsTrim value) =
      .ok { ok := true, json := .ok (Worker.Json.obj [("content", Worker.Json.str text)]) })
    (htext : jsTrim text ≠ "") (hsize : text.utf8ByteSize > 1048576) :
    GreaterFetchAnalyze.handleSubmit sv gapi sheets language form s log =
      (.ok { s with isLoading := false, successMessage := "" },
       log ++
        [Client.Effect.dispatch "greater-error" Client.Detail.null,
         Client.Effect.call (Client.Call.proxy (jsTrim value)),
         Client.Effect.call (Client.Call.valuesUpdate s.sheetId "Logs!A2:B2" "RAW"
            [[(sv.clock (log ++
                [Client.Effect.dispatch "greater-error" Client.Detail.null,
                 Client.Effect.call (Client.Call.proxy (jsTrim value))])).locale,
              "Error: " ++ ("URL content exceeds size limit (" ++
                GreaterFetchAnalyze.megabytesToFixed1 text.utf8ByteSize ++ "MB > 1MB)") ++
                " - " ++ jsTrim value]]),
         Client.Effect.dispatch "greater-error" (Client.Detail.error
            { timestamp := (sv.clock (log ++
                [Client.Effect.dispatch "greater-error" Client.Detail.null,
                 Client.Effect.call (Client.Call.proxy (jsTrim value)),
                 Client.Effect.call (Client.Call.valuesUpdate s.sheetId "Logs!A2:B2" "RAW"
                    [[(sv.clock (log ++
                        [Client.Effect.dispatch "greater-error" Client.Detail.null,
                         Client.Effect.call (Client.Call.proxy (jsTrim value))])).locale,
                      "Error: " ++ ("URL content exceeds size limit (" ++
                        GreaterFetchAnalyze.megabytesToFixed1 text.utf8ByteSize ++
                        "MB > 1MB)") ++ " - " ++ jsTrim value]])])).iso
              component := "greater-fetch-analyze"
              type := "ERROR"
              message := "Failed to analyze URL"
              technical := "URL content exceeds size limit (" ++
                GreaterFetchAnalyze.megabytesToFixed1 text.utf8ByteSize ++ "MB > 1MB)"
              critical := false })]) := by
  exact GreaterFetchAnalyze.handleSubmit_content_error sv gapi sheets language form s log value
    { message := "URL content exceeds size limit (" ++
        GreaterFetchAnalyze.megabytesToFixed1 text.utf8ByteSize ++ "MB > 1MB)" }
    (Client.Effect.call (Client.Call.proxy (jsTrim value)))
    hform hvalue hcan hsheet hurl
    (GreaterFetchAnalyze.analysis_too_large sv (jsTrim value) text
      { s with successMessage := "", isLoading := true }
      (log ++ [Client.Effect.dispatch "greater-error" Client.Detail.null]) hproxy htext hsize)
    (by
      show (jsIncludes ("URL content exceeds size limit (" ++
        GreaterFetchAnalyze.megabytesToFixed1 text.utf8ByteSize ++ "MB > 1MB)")
          "empty content" ||
        jsIncludes ("URL content exceeds size limit (" ++
        GreaterFetchAnalyze.megabytesToFixed1 text.utf8ByteSize ++ "MB > 1MB)")
          "size limit") = true
      rw [GreaterFetchAnalyze.sizeMessage_includes, Bool.or_true])

/-- Witness of C15 (amended): a page text of 1,048,577 bytes. -/
theorem oversize_content_is_rejected_witness :
    ((GreaterFetchAnalyze.handleSubmit (okServices [] overOneMegabyteText)
        (Gapi.client (some { expires_at := none })) readySheetsManager readyLanguageManager
        { urlInput := some "https://example.com" } analyzeState []).2.map isAnalysis) =
      [false, false, false, false] := by
  have hsize : overOneMegabyteText.utf8ByteSize = 1048577 := utf8ByteSize_replicate 1048577
  have hlarge : overOneMegabyteText.utf8ByteSize > 1048576 := by
    rw [hsize]
    decide
  have htext : jsTrim overOneMegabyteText ≠ "" := jsTrim_replicate 1048577 (by decide)
  have hrun := oversize_content_is_rejected (okServices [] overOneMegabyteText)
    (Gapi.client (some { expires_at := none })) readySheetsManager readyLanguageManager
    { urlInput := some "https://example.com" } analyzeState [] "https://example.com"
    overOneMegabyteText rfl (by decide) (canMakeApiCalls_ready _) (by decide) rfl
    (fun _ => rfl) htext hlarge
  rw [hrun]
  rfl

/-- C16: when the analysis of the fetched text returns the list `entities` and
the writes succeed, `handleSubmit` clears `Keywords!A2:C`, then writes to
`Keywords!A2:C(n+1)` the rows made of the entities of type `PERSON`, in their
order, each as name, type and salience, `n` being their number, and sends no
such write when `n = 0`; it then writes the log row, and the success message
reports `n`. No range of these requests reaches row 1. -/
theorem analysis_writes_person_rows (sv : Client.Services) (gapi : Gapi)
    (sheets language : Manager) (form : GreaterFetchAnalyze.Form)
    (s : GreaterFetchAnalyze.State) (log : List Client.Effect) (value text : String)
    (entities : List Client.Entity)
    (hform : form.urlInput = some value) (hvalue : jsTrim value ≠ "")
    (hcan : ∀ l, GreaterFetchAnalyze.canMakeApiCalls sv gapi sheets language l = (.ok true, l))
    (hsheet : Client.truthy s.sheetId = true) (hurl : sv.urlParses (jsTrim value) = true)
    (hproxy : ∀ l, sv.proxy l (jsTrim value) =
      .ok { ok := true, json := .ok (Worker.Json.obj [("content", Worker.Json.str text)]) })
    (htext : jsTrim text ≠ "") (hsize : text.utf8ByteSize ≤ 1048576)
    (hanalyze : ∀ l, sv.analyze l text = .ok { result := some { entities := some entities } })
    (hclear : ∀ l, sv.clear l s.sheetId "Keywords!A2:C" = .ok ())
    (hupdate : ∀ l range values, sv.update l s.sheetId range values = .ok ()) :
    ∃ logTime,
      GreaterFetchAnalyze.handleSubmit sv gapi sheets language form s log =
        (.ok { s with
            isLoading := false
            successMessage := "Analysis complete! Found " ++
              toString ((entities.filter fun e => e.type = "PERSON").length) ++
              " person mentions." },
         log ++
          [Client.Effect.dispatch "greater-error" Client.Detail.null,
           Client.Effect.call (Client.Call.proxy (jsTrim value)),
           Client.Effect.call (Client.Call.analyzeEntities text "PLAIN_TEXT"),
           Client.Effect.call (Client.Call.valuesClear s.sheetId "Keywords!A2:C")] ++
          (if (entities.filter fun e => e.type = "PERSON").length = 0 then []
           else [Client.Effect.call (Client.Call.valuesUpdate s.sheetId
              ("Keywords!A2:C" ++
                toString ((entities.filter fun e => e.type = "PERSON").length + 1))
              "RAW"
              ((entities.filter fun e => e.type = "PERSON").map
                fun e => [e.name, e.type, e.salience.toFixed3]))]) ++
          [Client.Effect.call (Client.Call.valuesUpdate s.sheetId "Logs!A2:B2" "RAW"
              [[logTime,
                "URL analyzed: " ++ jsTrim value ++ " (found " ++
                  toString ((entities.filter fun e => e.type = "PERSON").length) ++
                  " person entities)"]]),
           Client.Effect.formReset]) := by
  have hrun := GreaterFetchAnalyze.handleSubmit_success sv gapi sheets language form s log
    value text entities hform hvalue hcan hsheet hurl hproxy htext hsize hanalyze hclear hupdate
  have hrows : GreaterFetchAnalyze.personRows entities =
      (entities.filter fun e => e.type = "PERSON").map
        fun e => [e.name, e.type, e.salience.toFixed3] := by
    have hfun : (fun entity : Client.Entity => entity.type == "PERSON") =
        (fun e => decide (e.type = "PERSON")) := by
      funext e
      by_cases h : e.type = "PERSON" <;> simp [h]
    rw [GreaterFetchAnalyze.personRows, hfun]
  have hlen : (GreaterFetchAnalyze.personRows entities).length =
      (entities.filter fun e => e.type = "PERSON").length := by
    rw [hrows, List.length_map]
  rw [hlen, hrows] at hrun
  exact ⟨_, hrun⟩


/-- Witness of C16: two persons and a place give two rows, written to
`Keywords!A2:C3`. -/
theorem analysis_writes_person_rows_witness :
    Client.Effect.call (Client.Call.valuesUpdate (some "sheet-1") "Keywords!A2:C3" "RAW"
        [["Ada", "PERSON", "0.512"], ["Bob", "PERSON", "0.050"]]) ∈
      (GreaterFetchAnalyze.handleSubmit (okServices sampleEntities "Ada met Bob in London")
        (Gapi.client (some { expires_at := none })) readySheetsManager readyLanguageManager
        { urlInput := some " https://example.com " } analyzeState []).2 ∧
    ((GreaterFetchAnalyze.handleSubmit (okServices sampleEntities "Ada met Bob in London")
        (Gapi.client (some { expires_at := none })) readySheetsManager readyLanguageManager
        { urlInput := some " https://example.com " } analyzeState []).1.toOption.map
      GreaterFetchAnalyze.State.successMessage) =
      some "Analysis complete! Found 2 person mentions." := by
  obtain ⟨logTime, h⟩ := analysis_writes_person_rows
    (okServices sampleEntities "Ada met Bob in London")
    (Gapi.client (some { expires_at := none })) readySheetsManager readyLanguageManager
    { urlInput := some " https://example.com " } analyzeState [] " https://example.com "
    "Ada met Bob in London" sampleEntities rfl (by decide) (canMakeApiCalls_ready _)
    (by decide) rfl (fun _ => rfl) (by decide) (by decide) (fun _ => rfl) (fun _ => rfl)
    (fun _ _ _ => rfl)
  rw [h]
  have hn : (sampleEntities.filter fun e => e.type = "PERSON").length = 2 := by decide
  have hrows : ((sampleEntities.filter fun e => e.type = "PERSON").map
      fun e => [e.name, e.type, e.salience.toFixed3]) =
      [["Ada", "PERSON", "0.512"], ["Bob", "PERSON", "0.050"]] := by decide
  rw [hn, hrows]
  have h3 : "Keywords!A2:C" ++ toString (2 + 1) = "Keywords!A2:C3" := by decide
  rw [h3]
  refine ⟨?_, rfl⟩
  simp [analyzeState]


/-- C17, at the failing input: `createSheet` writes the entry `Sheet created`
to `Logs!A2:B2`; the first analysis then writes its log row to the same range
`Logs!A2:B2`, and so does the second: after two analyses the only ranges of the
Logs tab ever written are row 1 and row 2, and row 2 holds the row of the last
analysis. -/
theorem analysis_log_overwrites_row_two :
    lastWritten "Logs!A2:B2"
      (GreaterCreateSheet.createSheet (okServices sampleEntities "Ada met Bob in London")
        readySheetsManager "Jo" []).2 = some [["5/1/2024, 10:00:04", "Sheet created"]] ∧
    lastWritten "Logs!A2:B2"
      (GreaterFetchAnalyze.handleSubmit (okServices sampleEntities "Ada met Bob in London")
        (Gapi.client (some { expires_at := none })) readySheetsManager readyLanguageManager
        { urlInput := some "https://example.com" } analyzeState
        (GreaterCreateSheet.createSheet (okServices sampleEntities "Ada met Bob in London")
          readySheetsManager "Jo" []).2).2 =
      some [["5/1/2024, 10:00:010",
        "URL analyzed: https://example.com (found 2 person entities)"]] ∧
    logsRanges
      (GreaterFetchAnalyze.handleSubmit (okServices sampleEntities "Ada met Bob in London")
        (Gapi.client (some { expires_at := none })) readySheetsManager readyLanguageManager
        { urlInput := some "https://example.org" } analyzeState
        (GreaterFetchAnalyze.handleSubmit (okServices sampleEntities "Ada met Bob in London")
          (Gapi.client (some { expires_at := none })) readySheetsManager readyLanguageManager
          { urlInput := some "https://example.com" } analyzeState
          (GreaterCreateSheet.createSheet (okServices sampleEntities "Ada met Bob in London")
            readySheetsManager "Jo" []).2).2).2 =
      ["Logs!A1:B1", "Logs!A2:B2", "Logs!A2:B2", "Logs!A2:B2"] := by
  refine ⟨by decide, by decide, by decide⟩


/-! ## The gates of `canMakeApiCalls()` and the messages of `validateGuestName` -/

/-- C21, at concrete inputs: a manager whose first `initialize()` is still in
flight, hence not ready, does not report the not-initialized reason: without a
token both managers report `No access token available`. A Sheets manager with
`initPromise` set reports a fourth reason, `Google API client not available`,
when the client is missing. A token whose `expires_at` is 0, a time in the
past, is not reported as expired by the Sheets manager. -/
theorem canMakeApiCalls_gates_differ :
    (SheetsAPIManager.init true Manager.new).1.promises = [PromiseState.pending] ∧
    SheetsAPIManager.canMakeApiCalls (Gapi.client none) 1000
        (SheetsAPIManager.init true Manager.new).1 =
      .ok { allowed := false, reason := some "No access token available" } ∧
    LanguageAPIManager.canMakeApiCalls (Gapi.client none)
        (LanguageAPIManager.init true Manager.new).1 =
      .ok { allowed := false, reason := some "No access token available" } ∧
    SheetsAPIManager.canMakeApiCalls Gapi.noClient 1000 readySheetsManager =
      .ok { allowed := false, reason := some "Google API client not available" } ∧
    SheetsAPIManager.canMakeApiCalls (Gapi.client (some { expires_at := some 0 })) 1000
        readySheetsManager = .ok { allowed := true, reason := none } :=
  ⟨by decide, rfl, rfl, rfl, rfl⟩

/-- C21, amended: the gates of `canMakeApiCalls()` are passed in this order.
With `initPromise` `null` both managers report their not-initialized reason,
whatever the client and the token. With `initPromise` set, the Sheets manager
reports `Google API client not available` when the client is missing; with
the client and no token both report `No access token available`; with a token
whose `expires_at` is set, not zero and earlier than the current time the
Sheets manager reports `Token expired` and the Language manager allows the
call; with a token that is not expired both allow it. `allowed = true` comes
with the reason `null`, a refusal with a reason, and the reasons of a manager
are pairwise distinct. -/
theorem canMakeApiCalls_gate_order (gapi : Gapi) (currentTime : Nat) (m : Manager) :
    (m.initPromise = none →
      SheetsAPIManager.canMakeApiCalls gapi currentTime m =
        .ok { allowed := false, reason := some "API not initialized" } ∧
      LanguageAPIManager.canMakeApiCalls gapi m =
        .ok { allowed := false, reason := some "Language API not initialized" }) ∧
    (m.initPromise ≠ none → gapi.hasClient = false →
      SheetsAPIManager.canMakeApiCalls gapi currentTime m =
        .ok { allowed := false, reason := some "Google API client not available" }) ∧
    (m.initPromise ≠ none → gapi = Gapi.client none →
      SheetsAPIManager.canMakeApiCalls gapi currentTime m =
        .ok { allowed := false, reason := some "No access token available" } ∧
      LanguageAPIManager.canMakeApiCalls gapi m =
        .ok { allowed := false, reason := some "No access token available" }) ∧
    (∀ (token : Token) (t : Nat), m.initPromise ≠ none → gapi = Gapi.client (some token) →
      token.expires_at = some t → t ≠ 0 → t < currentTime →
      SheetsAPIManager.canMakeApiCalls gapi currentTime m =
        .ok { allowed := false, reason := some "Token expired" } ∧
      LanguageAPIManager.canMakeApiCalls gapi m = .ok { allowed := true, reason := none }) ∧
    (∀ token : Token, m.initPromise ≠ none → gapi = Gapi.client (some token) →
      token.expiredAt currentTime = false →
      SheetsAPIManager.canMakeApiCalls gapi currentTime m =
        .ok { allowed := true, reason := none } ∧
      LanguageAPIManager.canMakeApiCalls gapi m = .ok { allowed := true, reason := none }) ∧
    (∀ status, SheetsAPIManager.canMakeApiCalls gapi currentTime m = .ok status →
      (status.allowed = true ↔ status.reason = none)) ∧
    (∀ status, LanguageAPIManager.canMakeApiCalls gapi m = .ok status →
      (status.allowed = true ↔ status.reason = none)) ∧
    ["API not initialized", "Google API client not available", "No access token available",
      "Token expired"].Nodup ∧
    ["Language API not initialized", "No access token available"].Nodup := by
  have hinit : m.initPromise ≠ none →
      SheetsAPIManager.isInitialized m = true ∧ LanguageAPIManager.isInitialized m = true := by
    intro h
    cases hp : m.initPromise with
    | none => exact absurd hp h
    | some ref =>
      simp [SheetsAPIManager.isInitialized, LanguageAPIManager.isInitialized, hp,
        statusProperty]
  refine ⟨?_, ?_, ?_, ?_, ?_, ?_, ?_, by decide, by decide⟩
  · intro h
    simp [SheetsAPIManager.canMakeApiCalls, LanguageAPIManager.canMakeApiCalls,
      SheetsAPIManager.isInitialized, LanguageAPIManager.isInitialized, h]
  · intro h hc
    simp [SheetsAPIManager.canMakeApiCalls, (hinit h).1, hc]
  · intro h hg
    subst hg
    simp [SheetsAPIManager.canMakeApiCalls, LanguageAPIManager.canMakeApiCalls, (hinit h).1,
      (hinit h).2, Gapi.hasClient, Gapi.getToken]
  · intro token t h hg ht h0 hlt
    subst hg
    simp [SheetsAPIManager.canMakeApiCalls, LanguageAPIManager.canMakeApiCalls, (hinit h).1,
      (hinit h).2, Gapi.hasClient, Gapi.getToken, Token.expiredAt, ht, h0, hlt]
  · intro token h hg hexp
    subst hg
    simp [SheetsAPIManager.canMakeApiCalls, LanguageAPIManager.canMakeApiCalls, (hinit h).1,
      (hinit h).2, Gapi.hasClient, Gapi.getToken, hexp]
  · intro status hs
    unfold SheetsAPIManager.canMakeApiCalls at hs
    split at hs
    · cases hs; simp
    · split at hs
      · cases hs; simp
      · split at hs
        · cases hs
        · cases hs; simp
        · split at hs <;> cases hs <;> simp
  · intro status hs
    unfold LanguageAPIManager.canMakeApiCalls at hs
    split at hs
    · cases hs; simp
    · split at hs
      · cases hs
      · cases hs; simp
      · cases hs; simp

/-- Witness of C21 (amended): managers that are ready and a token that expired
at time 500, read at time 1000. -/
theorem canMakeApiCalls_gate_order_witness :
    SheetsAPIManager.canMakeApiCalls (Gapi.client (some { expires_at := some 500 })) 1000
        readySheetsManager = .ok { allowed := false, reason := some "Token expired" } ∧
    LanguageAPIManager.canMakeApiCalls (Gapi.client (some { expires_at := some 500 }))
        readyLanguageManager = .ok { allowed := true, reason := none } :=
  ⟨((canMakeApiCalls_gate_order (Gapi.client (some { expires_at := some 500 })) 1000
      readySheetsManager).2.2.2.1 { expires_at := some 500 } 500 (by decide) rfl rfl
      (by decide) (by decide)).1,
   ((canMakeApiCalls_gate_order (Gapi.client (some { expires_at := some 500 })) 1000
      readyLanguageManager).2.2.2.1 { expires_at := some 500 } 500 (by decide) rfl rfl
      (by decide) (by decide)).2⟩

/-- C22: `validateGuestName` on a name of fewer than 2 or more than 50 code
units dispatches the one error `Guest name must be between 2 and 50 characters`,
whatever its characters; on a name of 2 to 50 code units with a character
outside the allowed set it dispatches the one error
`Guest name contains invalid characters`; on a valid name it dispatches
nothing. So `J@` gets the second message and `Jo` none. -/
theorem validateGuestName_messages (sv : Client.Services) (name : String)
    (log : List Client.Effect) :
    ((jsLength name < 2 ∨ 50 < jsLength name) →
      GreaterCreateSheet.validateGuestName sv name log =
        (.ok false,
         log ++ [Client.Effect.dispatch "greater-error" (Client.Detail.error
            { timestamp := (sv.clock log).iso
              component := "greater-create-sheet"
              type := "ERROR"
              message := "Guest name must be between 2 and 50 characters"
              technical := "Invalid name length"
              critical := false })])) ∧
    (2 ≤ jsLength name → jsLength name ≤ 50 →
      (∃ c ∈ name.data, c ∉ allowedNameCharacters.data) →
      GreaterCreateSheet.validateGuestName sv name log =
        (.ok false,
         log ++ [Client.Effect.dispatch "greater-error" (Client.Detail.error
            { timestamp := (sv.clock log).iso
              component := "greater-create-sheet"
              type := "ERROR"
              message := "Guest name contains invalid characters"
              technical := "Invalid characters"
              critical := false })])) ∧
    (ValidGuestName name →
      GreaterCreateSheet.validateGuestName sv name log = (.ok true, log)) ∧
    GreaterCreateSheet.validateGuestName sv "J@" log =
      (.ok false,
       log ++ [Client.Effect.dispatch "greater-error" (Client.Detail.error
          { timestamp := (sv.clock log).iso
            component := "greater-create-sheet"
            type := "ERROR"
            message := "Guest name contains invalid characters"
            technical := "Invalid characters"
            critical := false })]) ∧
    GreaterCreateSheet.validateGuestName sv "Jo" log = (.ok true, log) := by
  have hlen : (jsLength name < 2 ∨ 50 < jsLength name) →
      GreaterCreateSheet.validateGuestName sv name log =
        (.ok false,
         log ++ [Client.Effect.dispatch "greater-error" (Client.Detail.error
            { timestamp := (sv.clock log).iso
              component := "greater-create-sheet"
              type := "ERROR"
              message := "Guest name must be between 2 and 50 characters"
              technical := "Invalid name length"
              critical := false })]) := by
    intro h
    have h1 : jsLength name < 2 ∨ jsLength name > 50 := h
    simp [GreaterCreateSheet.validateGuestName, h1, GreaterCreateSheet.dispatchError, bind,
      Client.Eff.bind, pure, Client.Eff.pure]
  have hchar : ∀ n : String, 2 ≤ jsLength n → jsLength n ≤ 50 →
      (∃ c ∈ n.data, c ∉ allowedNameCharacters.data) →
      GreaterCreateSheet.validateGuestName sv n log =
        (.ok false,
         log ++ [Client.Effect.dispatch "greater-error" (Client.Detail.error
            { timestamp := (sv.clock log).iso
              component := "greater-create-sheet"
              type := "ERROR"
              message := "Guest name contains invalid characters"
              technical := "Invalid characters"
              critical := false })]) := by
    intro n h2 h50 hbad
    have h1 : ¬ (jsLength n < 2 ∨ jsLength n > 50) := by omega
    have hre : GreaterCreateSheet.nameRegexTest n = false := by
      cases hr : GreaterCreateSheet.nameRegexTest n with
      | false => rfl
      | true =>
        obtain ⟨c, hc, hnot⟩ := hbad
        exact absurd ((GreaterCreateSheet.nameRegexTest_iff n h2).1 hr c hc) hnot
    simp [GreaterCreateSheet.validateGuestName, h1, hre, GreaterCreateSheet.dispatchError, bind,
      Client.Eff.bind, pure, Client.Eff.pure]
  exact ⟨hlen, hchar name, GreaterCreateSheet.validateGuestName_valid sv name log,
    hchar "J@" (by decide) (by decide) (by decide),
    GreaterCreateSheet.validateGuestName_valid sv "Jo" log (by decide)⟩

/-- Witness of C22: an empty name, and a name of one character that is not
allowed, get the length message. -/
theorem validateGuestName_messages_witness :
    GreaterCreateSheet.validateGuestName (okServices [] "") "@" [] =
      (.ok false,
       [Client.Effect.dispatch "greater-error" (Client.Detail.error
          { timestamp := "2024-05-01T10:00:00.000Z"
            component := "greater-create-sheet"
            type := "ERROR"
            message := "Guest name must be between 2 and 50 characters"
            technical := "Invalid name length"
            critical := false })]) :=
  (validateGuestName_messages (okServices [] "") "@" []).1 (by decide)
